import Mathlib

/-!
Verification development for the capital-structure extraction pipeline
(`backend/parsers/balance_sheet_json_parser.py`, `debt_note_html_parser.py`,
`lease_note_html_parser.py`, `capital_structure_builder.py`, `backend/app/bonus.py`).

Modelling conventions:
* Python floats are modelled as exact rationals (`ℚ`); `round(x, 3)` is modelled
  as rounding to a multiple of 1/1000 (ties half-up; CPython uses half-even,
  which agrees everywhere except exact half-thousandth ties, and no statement
  below depends on tie direction).
* JSON values are modelled by the inductive `JVal`; `dict.get(k)` returning
  `None` for an absent key is modelled by `objGet` returning `JVal.null`.
* All text manipulation is done on `List Char` with structural recursion so
  that concrete runs reduce by `decide`.
* File I/O, HTML parsing (BeautifulSoup) and the HTTP layer are outside the
  modelled core: the parsers are embedded as functions of the already
  materialised table cell texts and flattened document text, exactly as the
  Python code consumes them after the `get_text` calls.
-/

/-! ## Character and list-of-characters helpers -/

/-- ASCII lower-casing of a single character (Python `str.lower` on the
alphabets used by the sources). -/
def lowerChar (c : Char) : Char :=
  if 65 ≤ c.toNat ∧ c.toNat ≤ 90 then Char.ofNat (c.toNat + 32) else c

/-- Lower-case a character list. -/
def lowerL (s : List Char) : List Char := s.map lowerChar

/-- Characters treated as whitespace by the Python code (`\s`, `str.strip`),
including the non-breaking space that `_clean_space` replaces. -/
def isSpaceC (c : Char) : Bool :=
  c = ' ' || c = '\t' || c = '\n' || c = '\r' || c = Char.ofNat 11 ||
  c = Char.ofNat 12 || c = Char.ofNat 160

/-- Python `str.strip()` on a character list. -/
def pyStrip (s : List Char) : List Char :=
  ((s.dropWhile (isSpaceC ·)).reverse.dropWhile (isSpaceC ·)).reverse

/-- Remove every occurrence of a character (Python `str.replace(c, "")`). -/
def removeAll (c : Char) (s : List Char) : List Char := s.filter (· ≠ c)

/-- Does `hay` start with `needle`? -/
def startsWithL : List Char → List Char → Bool
  | _, [] => true
  | [], _ :: _ => false
  | a :: as, b :: bs => a == b && startsWithL as bs

/-- Substring containment (Python `needle in hay`). -/
def containsL (hay needle : List Char) : Bool :=
  match hay with
  | [] => needle.isEmpty
  | _ :: t => startsWithL hay needle || containsL t needle

/-- Substring containment on `String` (Python `b in a`). -/
def strContains (hay needle : String) : Bool := containsL hay.data needle.data

/-- Digit test. -/
def isDigitC (c : Char) : Bool := '0' ≤ c && c ≤ '9'

/-- ASCII letter test. -/
def isAlphaC (c : Char) : Bool := ('a' ≤ c && c ≤ 'z') || ('A' ≤ c && c ≤ 'Z')

/-- Python `\w` on the ASCII range (letters, digits, underscore). -/
def isWordC (c : Char) : Bool := isAlphaC c || isDigitC c || c = '_'

/-- Value of a list of decimal digits. -/
def digitsToNat (ds : List Char) : Nat :=
  ds.foldl (fun acc c => acc * 10 + (c.toNat - 48)) 0

/-- Python truthiness of an optional string (`None` and `""` are falsy). -/
def pyTruthyStr : Option String → Bool
  | none => false
  | some s => !s.isEmpty

/-- Python `a or b` on optional strings (first truthy operand). -/
def pyOrStr (a b : Option String) : Option String :=
  if pyTruthyStr a then a else b

/-- Python `(a or default)` collapsing an optional string to a string. -/
def pyOrStrD (a : Option String) (d : String) : String :=
  if pyTruthyStr a then a.getD d else d

/-! ## Numeric string parsing (Python `float` / `int` literals)

Stage 1 produces integer parts (decide-friendly); stage 2 converts to `ℚ`.
`inf`/`nan` and digit-group underscores accepted by CPython are not modelled;
no source input relies on them. -/

/-- Split off leading decimal digits. -/
def takeDigits (s : List Char) : List Char × List Char :=
  match s with
  | [] => ([], [])
  | c :: t =>
    if isDigitC c then
      let (ds, r) := takeDigits t
      (c :: ds, r)
    else ([], s)

/-- Parse an optional sign, returning the sign as an integer factor. -/
def takeSign : List Char → Int × List Char
  | '-' :: t => (-1, t)
  | '+' :: t => (1, t)
  | s => (1, s)

/-- Parse the digit/exponent body of a Python float literal (after sign), as
(mantissa digits, count of fractional digits, exponent). -/
def parseFloatBody (s : List Char) : Option (Nat × Nat × Int) :=
  let (d1, r1) := takeDigits s
  let (d2, r2) :=
    match r1 with
    | '.' :: t => takeDigits t
    | _ => ([], r1)
  let r2' := if r1.head? = some '.' then r2 else r1
  if d1.isEmpty ∧ d2.isEmpty then none
  else
    match r2' with
    | [] => some (digitsToNat (d1 ++ d2), d2.length, 0)
    | e :: t =>
      if e = 'e' ∨ e = 'E' then
        let (es, t') := takeSign t
        let (ed, t'') := takeDigits t'
        if ed.isEmpty ∨ ¬ t''.isEmpty then none
        else some (digitsToNat (d1 ++ d2), d2.length, es * (digitsToNat ed : Int))
      else none

/-- Stage 1 of Python `float(s)` on an already-stripped string: mantissa with
sign, number of fractional digits, decimal exponent. -/
def parseFloatParts (s : List Char) : Option (Int × Nat × Int) :=
  let (sg, r) := takeSign s
  (parseFloatBody r).map fun (m, f, e) => (sg * (m : Int), f, e)

/-- Stage 2: value of the parsed parts. -/
def ratOfParts : Int × Nat × Int → ℚ
  | (m, f, e) => (m : ℚ) * (10 : ℚ) ^ (e - (f : Int))

/-- Python `float(s)` on a character list (no surrounding whitespace). -/
def pyFloat (s : List Char) : Option ℚ := (parseFloatParts s).map ratOfParts

/-- Python `int(s)`: strip whitespace, optional sign, decimal digits only. -/
def pyIntParse (s : List Char) : Option Int :=
  let t := pyStrip s
  let (sg, r) := takeSign t
  let (ds, r') := takeDigits r
  if ds.isEmpty ∨ ¬ r'.isEmpty then none else some (sg * (digitsToNat ds : Int))

/-! ## JSON values -/

/-- JSON-like runtime values as the Python code sees them after `json.loads`. -/
inductive JVal where
  | null : JVal
  | bool : Bool → JVal
  | num : ℚ → JVal
  | str : String → JVal
  | arr : List JVal → JVal
  | obj : List (String × JVal) → JVal

/-- Python `d.get(key)`: first binding wins, absent key yields `None`
(`JVal.null`); a non-dict has no `get`, modelled as `null`. -/
def objGet (v : JVal) (key : String) : JVal :=
  match v with
  | JVal.obj fields =>
    match fields.find? (fun kv => kv.1 = key) with
    | some kv => kv.2
    | none => JVal.null
  | _ => JVal.null

/-- Is the value a JSON object (Python `isinstance(x, dict)`)? -/
def isObj : JVal → Bool
  | JVal.obj _ => true
  | _ => false

/-! ## balance_sheet_json_parser._safe_float and ._to_millions -/

/-- `_safe_float` of `balance_sheet_json_parser.py`: `None` stays `None`;
strings are stripped, commas removed, `""`/`"-"`/`"—"` yield `None`, otherwise
`float(...)`; other values go through `float(x)` (numbers and bools succeed,
containers raise and are absorbed to `None`). -/
def safe_float : JVal → Option ℚ
  | JVal.null => none
  | JVal.num q => some q
  | JVal.bool b => some (if b then 1 else 0)
  | JVal.str s =>
    let t := removeAll ',' (pyStrip s.data)
    if t = [] ∨ t = ['-'] ∨ t = ['—'] then none else pyFloat t
  | JVal.arr _ => none
  | JVal.obj _ => none

/-- Python `int(x)` as used for the `scale` field: `None` is handled by the
caller; floats truncate toward zero; strings parse as integers; bools are 0/1;
anything else raises (absorbed to the caller's default). `none` here marks the
raising cases. -/
def pyIntCast : JVal → Option Int
  | JVal.num q => some (q.num / (q.den : Int))
  | JVal.str s => pyIntParse s.data
  | JVal.bool b => some (if b then 1 else 0)
  | _ => none

/-- Scale extraction in `_to_millions`: `int(scale_raw) if scale_raw is not
None else 6`, with any exception defaulting to 6. -/
def scaleOf (v : JVal) : Int :=
  match objGet v "scale" with
  | JVal.null => 6
  | w => (pyIntCast w).getD 6

/-- `_to_millions`: convert a raw value object to $mm. Non-dicts yield `None`;
a usable `numeric_value` is divided by 1e6; otherwise `display_value` is
parsed and multiplied by `10^(scale-6)`. -/
def to_millions (v : JVal) : Option ℚ :=
  if isObj v then
    match safe_float (objGet v "numeric_value") with
    | some nv => some (nv / 1000000)
    | none =>
      match safe_float (objGet v "display_value") with
      | none => none
      | some dv => some (dv * (10 : ℚ) ^ (scaleOf v - 6))
  else none

/-! ## Rounding to 3 decimals -/

/-- Python `round(x, 3)` (ties modelled half-up; see file header). -/
def round3 (q : ℚ) : ℚ := ((⌊q * 1000 + 1 / 2⌋ : ℤ) : ℚ) / 1000

/-- `round3` lifted to optionals (`capital_structure_builder.round3`). -/
def round3Opt (q : Option ℚ) : Option ℚ := q.map round3

/-- A rational that is a whole number of thousandths. -/
def IsM3 (q : ℚ) : Prop := ∃ n : ℤ, q = (n : ℚ) / 1000

theorem isM3_round3 (q : ℚ) : IsM3 (round3 q) := ⟨⌊q * 1000 + 1 / 2⌋, rfl⟩

theorem isM3_zero : IsM3 0 := ⟨0, by norm_num⟩

theorem isM3_add {a b : ℚ} (ha : IsM3 a) (hb : IsM3 b) : IsM3 (a + b) := by
  obtain ⟨n, rfl⟩ := ha
  obtain ⟨m, rfl⟩ := hb
  exact ⟨n + m, by push_cast; ring⟩

theorem isM3_sub {a b : ℚ} (ha : IsM3 a) (hb : IsM3 b) : IsM3 (a - b) := by
  obtain ⟨n, rfl⟩ := ha
  obtain ⟨m, rfl⟩ := hb
  exact ⟨n - m, by push_cast; ring⟩

theorem round3_eq_of_isM3 {q : ℚ} (h : IsM3 q) : round3 q = q := by
  obtain ⟨n, rfl⟩ := h
  unfold round3
  have h1 : ((n : ℚ) / 1000) * 1000 + 1 / 2 = (n : ℚ) + 1 / 2 := by
    field_simp
  rw [h1, Int.floor_int_add]
  have h2 : ⌊(1 : ℚ) / 2⌋ = 0 := by norm_num [Int.floor_eq_iff]
  rw [h2, add_zero]

theorem round3_int_add (a x : ℚ) (ha : IsM3 a) :
    round3 (a + x) = a + round3 x := by
  obtain ⟨n, rfl⟩ := ha
  unfold round3
  have h1 : ((n : ℚ) / 1000 + x) * 1000 + 1 / 2 = (n : ℚ) + (x * 1000 + 1 / 2) := by
    field_simp; ring
  rw [h1, Int.floor_int_add]
  push_cast
  ring

/-! ## Claim C4: the value normalizer -/

/-- C4: the value normalizer `_to_millions` is total (it is a Lean `def`, so it
never raises by construction) and: a value object with a usable
`numeric_value = n` yields `n/1e6`; otherwise a parseable `display_value d`
with extracted scale `s` yields `d * 10^(s-6)`; the scale defaults to 6 when
absent or non-numeric; `"-"`, `"—"` and empty display values yield null; a
value with no usable numeric field, and any non-object input, yield null. -/
theorem C4_value_normalizer_total_and_correct :
    (∀ (v : JVal) (n : ℚ), safe_float (objGet v "numeric_value") = some n →
      to_millions v = some (n / 1000000)) ∧
    (∀ (v : JVal) (d : ℚ), isObj v = true →
      safe_float (objGet v "numeric_value") = none →
      safe_float (objGet v "display_value") = some d →
      to_millions v = some (d * (10 : ℚ) ^ (scaleOf v - 6))) ∧
    (∀ v : JVal, objGet v "scale" = JVal.null → scaleOf v = 6) ∧
    (∀ (v : JVal) (s : String), objGet v "scale" = JVal.str s →
      pyIntParse s.data = none → scaleOf v = 6) ∧
    (∀ v : JVal, isObj v = true →
      safe_float (objGet v "numeric_value") = none →
      (objGet v "display_value" = JVal.str "-" ∨
       objGet v "display_value" = JVal.str "—" ∨
       objGet v "display_value" = JVal.str "") →
      to_millions v = none) ∧
    (∀ v : JVal, safe_float (objGet v "numeric_value") = none →
      safe_float (objGet v "display_value") = none → to_millions v = none) ∧
    (∀ v : JVal, isObj v = false → to_millions v = none) := by
  refine ⟨?_, ?_, ?_, ?_, ?_, ?_, ?_⟩
  · intro v n h
    have hobj : isObj v = true := by
      cases v
      case obj => rfl
      all_goals simp [objGet, safe_float] at h
    simp [to_millions, hobj, h]
  · intro v d hobj hnum hdisp
    simp [to_millions, hobj, hnum, hdisp]
  · intro v h
    simp [scaleOf, h]
  · intro v s h hp
    simp [scaleOf, h, pyIntCast, hp]
  · intro v hobj hnum hd
    have hdn : safe_float (objGet v "display_value") = none := by
      rcases hd with h | h | h <;> rw [h] <;> decide
    simp [to_millions, hobj, hnum, hdn]
  · intro v hnum hdisp
    cases hv : isObj v <;> simp [to_millions, hv, hnum, hdisp]
  · intro v h
    simp [to_millions, h]

/-- Concrete runs of C4: an absolute-dollar `numeric_value` is divided by 1e6;
a `display_value` with thousands separators and scale 6 parses to the same
$mm figure; a dash display and a non-object input both normalize to null. -/
theorem C4_value_normalizer_witness :
    to_millions (JVal.obj [("numeric_value", JVal.num 1869417000)]) =
      some (1869417000 / 1000000) ∧
    to_millions (JVal.obj [("display_value", JVal.str "1,869.417"),
      ("scale", JVal.num 6)]) = some (1869417 / 1000) ∧
    to_millions (JVal.obj [("display_value", JVal.str "—")]) = none ∧
    to_millions (JVal.str "not an object") = none := by
  refine ⟨?_, ?_, ?_, ?_⟩
  · exact C4_value_normalizer_total_and_correct.1
      (JVal.obj [("numeric_value", JVal.num 1869417000)]) 1869417000 rfl
  · have h := C4_value_normalizer_total_and_correct.2.1
      (JVal.obj [("display_value", JVal.str "1,869.417"), ("scale", JVal.num 6)])
      (ratOfParts (1869417, 3, 0)) rfl rfl rfl
    rw [h]
    have hs : scaleOf (JVal.obj [("display_value", JVal.str "1,869.417"),
        ("scale", JVal.num 6)]) = 6 := by
      simp [scaleOf, objGet, pyIntCast]
    rw [hs]
    norm_num [ratOfParts]
  · exact C4_value_normalizer_total_and_correct.2.2.2.2.1
      (JVal.obj [("display_value", JVal.str "—")]) rfl rfl (Or.inr (Or.inl rfl))
  · exact C4_value_normalizer_total_and_correct.2.2.2.2.2.2
      (JVal.str "not an object") rfl

/-! ## Balance sheet data model -/

/-- One entry of `balance_sheet.json`'s `columns` array (period descriptor). -/
structure BSColumn where
  key : Option String
  fiscal_year : Option Int
  fiscal_quarter : Option Int
  period_type : Option String
  end_date : Option String

/-- One entry of `balance_sheet.json`'s `rows` array. `values` maps a period
key to the raw value object. -/
structure BSRow where
  concept : Option String
  tag : Option String
  label : Option String
  name : Option String
  title : Option String
  values : List (String × JVal)

/-- The decoded `balance_sheet.json` document (fields the parser reads). -/
structure BalanceSheet where
  company_name : Option String
  entity_name : Option String
  ticker : Option String
  cik : Option String
  columns : List BSColumn
  rows : List BSRow

/-! ## Row matching (`find_row`, `find_row_by_concept_or_label`) -/

/-- Collapse runs of whitespace to a single space (`re.sub(r"\s+", " ", s)`);
the flag records whether the previous character was whitespace. -/
def collapseWsAux : Bool → List Char → List Char
  | _, [] => []
  | prevSpace, c :: t =>
    if isSpaceC c then
      if prevSpace then collapseWsAux true t
      else ' ' :: collapseWsAux true t
    else c :: collapseWsAux false t

/-- Collapse whitespace runs in a character list. -/
def collapseWs (s : List Char) : List Char := collapseWsAux false s

/-- `_norm_label`: lowercase, strip, collapse whitespace, replace
non-word/non-space characters by spaces, collapse and strip again. -/
def norm_label (s : List Char) : List Char :=
  pyStrip (collapseWs ((collapseWs (pyStrip (lowerL s))).map
    (fun c => if isWordC c || isSpaceC c then c else ' ')))

/-- The concept key `find_row` compares: `(r.get("concept") or r.get("tag")
or "").strip()`. -/
def conceptKey (r : BSRow) : List Char :=
  pyStrip (pyOrStrD (pyOrStr r.concept r.tag) "").data

/-- The label text `find_row` searches: `(r.get("label") or r.get("name") or
r.get("title") or "").lower()`. -/
def labelTextOf (r : BSRow) : List Char :=
  lowerL (pyOrStrD (pyOrStr r.label (pyOrStr r.name r.title)) "").data

/-- Phase 1 of `find_row`: each concept candidate, in priority order, is
checked against every row; the first full match wins. -/
def find_row_concept (rows : List BSRow) (concepts : List String) : Option BSRow :=
  match concepts with
  | [] => none
  | c :: cs =>
    match rows.find? (fun r => conceptKey r == c.data) with
    | some r => some r
    | none => find_row_concept rows cs

/-- Does row `r` contain any of the (lowercased) keywords in its label text? -/
def labelKwMatch (kws : List String) (r : BSRow) : Bool :=
  (kws.map (fun k => lowerL k.data)).any (fun k => containsL (labelTextOf r) k)

/-- `find_row`: concept candidates in priority order first; only if no concept
matched anywhere, the first row whose label contains any keyword. -/
def find_row (bs : BalanceSheet) (concepts : List String)
    (label_any_keywords : List String) : Option BSRow :=
  match find_row_concept bs.rows concepts with
  | some r => some r
  | none =>
    if label_any_keywords.isEmpty then none
    else bs.rows.find? (labelKwMatch label_any_keywords)

/-- The concept string `find_row_by_concept_or_label` compares:
`str(r.get("concept") or "")`. -/
def conceptStr (r : BSRow) : String := pyOrStrD r.concept ""

/-- Does row `r`'s normalized label contain any of the normalized keywords? -/
def normLabelKwMatch (keywords : List (List Char)) (r : BSRow) : Bool :=
  keywords.any (fun k => containsL (norm_label (pyOrStrD r.label "").data) k)

/-- The non-empty concept candidates (`{c for c in concept_candidates if c}`). -/
def conceptSetOf (cands : List String) : List String :=
  cands.filter (fun c => ¬ c.isEmpty)

/-- The normalized keyword list (`[_norm_label(k) for k in label_keywords_any
if k and k.strip()]`). -/
def normKeywordsOf (kws : List String) : List (List Char) :=
  (kws.filter (fun k => ¬ k.isEmpty ∧ ¬ (pyStrip k.data).isEmpty)).map
    (fun k => norm_label k.data)

/-- `find_row_by_concept_or_label`: exact concept-set membership over all rows
first, then normalized-label keyword containment. -/
def find_row_by_concept_or_label (bs : BalanceSheet)
    (concept_candidates label_keywords_any : List String) : Option BSRow :=
  match (if (conceptSetOf concept_candidates).isEmpty then none
         else bs.rows.find? (fun r =>
           (conceptSetOf concept_candidates).contains (conceptStr r))) with
  | some r => some r
  | none =>
    if (normKeywordsOf label_keywords_any).isEmpty then none
    else bs.rows.find? (normLabelKwMatch (normKeywordsOf label_keywords_any))

/-- `extract_row_value_mm`: look up the selected period's raw value object in
the row and normalize it to $mm. -/
def extract_row_value_mm (row : BSRow) (period_key : String) : Option ℚ :=
  match row.values.find? (fun kv => kv.1 == period_key) with
  | some kv => to_millions kv.2
  | none => none

theorem find_row_concept_some {rows : List BSRow} {concepts : List String}
    {r : BSRow} (h : find_row_concept rows concepts = some r) :
    r ∈ rows ∧ ∃ c ∈ concepts, conceptKey r = c.data := by
  induction concepts with
  | nil => simp [find_row_concept] at h
  | cons c cs ih =>
    rw [find_row_concept] at h
    cases hf : rows.find? (fun r => conceptKey r == c.data) with
    | some r' =>
      rw [hf] at h
      cases h
      refine ⟨List.mem_of_find?_eq_some hf, c, List.mem_cons_self c cs, ?_⟩
      have := List.find?_some hf
      simpa using this
    | none =>
      rw [hf] at h
      obtain ⟨hr, c', hc', hk⟩ := ih h
      exact ⟨hr, c', List.mem_cons_of_mem c hc', hk⟩

theorem find_row_concept_isSome {rows : List BSRow} {concepts : List String}
    (h : ∃ r ∈ rows, ∃ c ∈ concepts, conceptKey r = c.data) :
    (find_row_concept rows concepts).isSome := by
  induction concepts with
  | nil => simp at h
  | cons c cs ih =>
    rw [find_row_concept]
    cases hf : rows.find? (fun r => conceptKey r == c.data) with
    | some r' => simp
    | none =>
      apply ih
      obtain ⟨r, hr, c', hc', hk⟩ := h
      rcases List.mem_cons.mp hc' with rfl | hmem
      · exfalso
        have := List.find?_eq_none.mp hf r hr
        simp [hk] at this
      · exact ⟨r, hr, c', hmem, hk⟩

theorem find_row_concept_eq_none {rows : List BSRow} {concepts : List String}
    (h : ∀ r ∈ rows, ∀ c ∈ concepts, conceptKey r ≠ c.data) :
    find_row_concept rows concepts = none := by
  induction concepts with
  | nil => rfl
  | cons c cs ih =>
    rw [find_row_concept]
    have hf : rows.find? (fun r => conceptKey r == c.data) = none := by
      rw [List.find?_eq_none]
      intro r hr
      simpa using h r hr c (List.mem_cons_self c cs)
    rw [hf]
    exact ih (fun r hr c' hc' => h r hr c' (List.mem_cons_of_mem c hc'))

/-! ## Claim C6: two-phase, strictly ordered row matching -/

/-- C6: in both `find_row` and `find_row_by_concept_or_label`, every concept
candidate is tested against every row before any label keyword is consulted:
if any row matches a concept candidate, the returned row is concept-matched
and the result is independent of the keyword list (so a label-only match in an
earlier row cannot win); if neither phase matches any row, the result is
null. -/
theorem C6_concept_precedence_two_phase :
    (∀ (bs : BalanceSheet) (concepts kws : List String),
      (∃ r ∈ bs.rows, ∃ c ∈ concepts, conceptKey r = c.data) →
      find_row bs concepts kws = find_row bs concepts [] ∧
      ∃ r', find_row bs concepts kws = some r' ∧ r' ∈ bs.rows ∧
        ∃ c ∈ concepts, conceptKey r' = c.data) ∧
    (∀ (bs : BalanceSheet) (concepts kws : List String),
      (∀ r ∈ bs.rows, ∀ c ∈ concepts, conceptKey r ≠ c.data) →
      (∀ r ∈ bs.rows, labelKwMatch kws r = false) →
      find_row bs concepts kws = none) ∧
    (∀ (bs : BalanceSheet) (cands kws : List String),
      (∃ r ∈ bs.rows, (conceptSetOf cands).contains (conceptStr r)) →
      find_row_by_concept_or_label bs cands kws =
        find_row_by_concept_or_label bs cands [] ∧
      ∃ r', find_row_by_concept_or_label bs cands kws = some r' ∧
        r' ∈ bs.rows ∧ (conceptSetOf cands).contains (conceptStr r')) ∧
    (∀ (bs : BalanceSheet) (cands kws : List String),
      (∀ r ∈ bs.rows, (conceptSetOf cands).contains (conceptStr r) = false) →
      (∀ r ∈ bs.rows, normLabelKwMatch (normKeywordsOf kws) r = false) →
      find_row_by_concept_or_label bs cands kws = none) := by
  refine ⟨?_, ?_, ?_, ?_⟩
  · intro bs concepts kws h
    have hs : (find_row_concept bs.rows concepts).isSome :=
      find_row_concept_isSome h
    obtain ⟨r, hr⟩ := Option.isSome_iff_exists.mp hs
    obtain ⟨hmem, hc⟩ := find_row_concept_some hr
    constructor
    · unfold find_row
      rw [hr]
    · exact ⟨r, by unfold find_row; rw [hr], hmem, hc⟩
  · intro bs concepts kws hc hl
    unfold find_row
    rw [find_row_concept_eq_none hc]
    cases hk : kws.isEmpty
    · simp only [hk, Bool.false_eq_true, if_false]
      rw [List.find?_eq_none]
      intro r hr
      simp [hl r hr]
    · simp [hk]
  · intro bs cands kws h
    obtain ⟨r0, hr0, hc0⟩ := h
    have hne : (conceptSetOf cands).isEmpty = false := by
      cases hfe : (conceptSetOf cands).isEmpty
      · rfl
      · rw [List.isEmpty_iff] at hfe
        rw [hfe] at hc0
        simp at hc0
    have hfind : ∃ r', bs.rows.find? (fun r =>
        (conceptSetOf cands).contains (conceptStr r)) = some r' := by
      cases hf : bs.rows.find? (fun r =>
          (conceptSetOf cands).contains (conceptStr r)) with
      | some r' => exact ⟨r', rfl⟩
      | none => exact absurd hc0 (List.find?_eq_none.mp hf r0 hr0)
    obtain ⟨r', hr'⟩ := hfind
    have hres : ∀ kws', find_row_by_concept_or_label bs cands kws' = some r' := by
      intro kws'
      unfold find_row_by_concept_or_label
      simp only [hne, Bool.false_eq_true, if_false]
      rw [hr']
    refine ⟨by rw [hres kws, hres []], r', hres kws,
      List.mem_of_find?_eq_some hr', by simpa using List.find?_some hr'⟩
  · intro bs cands kws hc hl
    unfold find_row_by_concept_or_label
    have h1 : (if (conceptSetOf cands).isEmpty then none
        else bs.rows.find? (fun r =>
          (conceptSetOf cands).contains (conceptStr r))) =
        (none : Option BSRow) := by
      cases hfe : (conceptSetOf cands).isEmpty
      · simp only [Bool.false_eq_true, if_false]
        rw [List.find?_eq_none]
        intro r hr hcontra
        rw [hc r hr] at hcontra
        exact Bool.noConfusion hcontra
      · simp
    rw [h1]
    cases hke : (normKeywordsOf kws).isEmpty
    · simp only [hke, Bool.false_eq_true, if_false]
      rw [List.find?_eq_none]
      intro r hr hcontra
      rw [hl r hr] at hcontra
      exact Bool.noConfusion hcontra
    · simp [hke]

/-! ## Period selection (`_load_periods`, `select_period_key_for_annual_period`) -/

/-- Python `(x or None)`: an empty string collapses to `None`. -/
def optNorm (s : Option String) : Option String :=
  if pyTruthyStr s then s else none

/-- `PeriodMeta` of `balance_sheet_json_parser.py`. -/
structure PeriodMeta where
  key : String
  fiscal_year : Option Int
  fiscal_quarter : Option Int
  period_type : Option String
  end_date : Option String
  deriving DecidableEq

/-- `_load_periods`: keep columns with a non-empty key; normalize empty
`period_type`/`end_date` strings to `None`. -/
def load_periods (cols : List BSColumn) : List PeriodMeta :=
  cols.filterMap fun c =>
    let k := pyOrStrD c.key ""
    if k.isEmpty then none
    else some ⟨k, c.fiscal_year, c.fiscal_quarter,
      optNorm c.period_type, optNorm c.end_date⟩

/-- Split a character list on a separator (Python `str.split(sep)`). -/
def splitOnAux (sep : Char) (acc : List Char) : List Char → List (List Char)
  | [] => [acc.reverse]
  | c :: t =>
    if c = sep then acc.reverse :: splitOnAux sep [] t
    else splitOnAux sep (c :: acc) t

/-- Split on a separator character. -/
def splitOn (sep : Char) (s : List Char) : List (List Char) := splitOnAux sep [] s

/-- Number of days of a month in the proleptic Gregorian calendar (as
`datetime.date` validates). -/
def daysInMonth (y m : Int) : Int :=
  if m = 1 ∨ m = 3 ∨ m = 5 ∨ m = 7 ∨ m = 8 ∨ m = 10 ∨ m = 12 then 31
  else if m = 4 ∨ m = 6 ∨ m = 9 ∨ m = 11 then 30
  else if (y % 4 = 0 ∧ y % 100 ≠ 0) ∨ y % 400 = 0 then 29
  else 28

/-- `datetime.date(y, m, d)` validity (raises absorbed to `none`). -/
def mkValidDate (y m d : Int) : Option (Int × Int × Int) :=
  if 1 ≤ y ∧ y ≤ 9999 ∧ 1 ≤ m ∧ m ≤ 12 ∧ 1 ≤ d ∧ d ≤ daysInMonth y m then
    some (y, m, d)
  else none

/-- `_parse_iso_date`: split on `-` into exactly three integer parts and
validate as a calendar date; any failure yields `None`. -/
def parse_iso_date (s : Option String) : Option (Int × Int × Int) :=
  match s with
  | none => none
  | some str =>
    if str.isEmpty then none
    else
      match splitOn '-' str.data with
      | [ys, ms, ds] =>
        match pyIntParse ys, pyIntParse ms, pyIntParse ds with
        | some y, some m, some d => mkValidDate y m d
        | _, _, _ => none
      | _ => none

/-- Strict calendar order on (year, month, day) triples. -/
def dateLtB : Int × Int × Int → Int × Int × Int → Bool
  | (y1, m1, d1), (y2, m2, d2) =>
    y1 < y2 || (y1 = y2 && (m1 < m2 || (m1 = m2 && d1 < d2)))

/-- Does the period have `fiscal_quarter == 4`? -/
def isQ4 (p : PeriodMeta) : Bool := p.fiscal_quarter == some 4

/-- Does the period have `period_type == "instant"` (case-insensitive)? -/
def isInstant (p : PeriodMeta) : Bool :=
  lowerL (pyOrStrD p.period_type "").data = "instant".data

/-- The period's end date for scoring, defaulting to 1900-01-01. -/
def edOf (p : PeriodMeta) : Int × Int × Int :=
  (parse_iso_date p.end_date).getD (1900, 1, 1)

/-- The `score` tuple of `select_period_key_for_annual_period`. -/
def scoreVal (p : PeriodMeta) : Nat × Nat × (Int × Int × Int) :=
  ((if isQ4 p then 1 else 0), (if isInstant p then 1 else 0), edOf p)

/-- Lexicographic strict order on score tuples (Python tuple `<`). -/
def scoreLtB : Nat × Nat × (Int × Int × Int) → Nat × Nat × (Int × Int × Int) → Bool
  | (a1, a2, ad), (b1, b2, bd) =>
    a1 < b1 || (a1 = b1 && (a2 < b2 || (a2 = b2 && dateLtB ad bd)))

/-- First maximal-score candidate. `sorted(candidates, key=score,
reverse=True)[0]` with Python's stable sort returns the earliest candidate
attaining the maximal score, which this left fold computes directly. -/
def select_best (c : PeriodMeta) (cs : List PeriodMeta) : PeriodMeta :=
  cs.foldl (fun best p => if scoreLtB (scoreVal best) (scoreVal p) then p else best) c

/-- Candidates whose `fiscal_year` equals the metadata `annual_period`. -/
def candidatesOf (bs : BalanceSheet) (annual_period : Int) : List PeriodMeta :=
  (load_periods bs.columns).filter (fun p => p.fiscal_year == some annual_period)

/-- First row whose `values` dict is non-empty, and its first key. -/
def firstRowKey (rows : List BSRow) : Option String :=
  rows.findSome? (fun r => r.values.head?.map (fun kv => kv.1))

/-- `select_period_key_for_annual_period`: filter to the target fiscal year and
pick the best-scoring period; with no candidate, fall back to the first
declared column, then the first row's first value key, then `"UNKNOWN"`.
Determinism of the claim is inherent: this is a pure function of its
arguments. -/
def select_period_key_for_annual_period (bs : BalanceSheet)
    (annual_period : Int) : String × Option String :=
  match candidatesOf bs annual_period with
  | c :: cs => ((select_best c cs).key, (select_best c cs).end_date)
  | [] =>
    match load_periods bs.columns with
    | p :: _ => (p.key, p.end_date)
    | [] =>
      match firstRowKey bs.rows with
      | some k => (k, none)
      | none => ("UNKNOWN", none)

theorem select_best_step (c q : PeriodMeta) (qs : List PeriodMeta) :
    select_best c (q :: qs) =
      select_best (if scoreLtB (scoreVal c) (scoreVal q) then q else c) qs := by
  rw [select_best, select_best, List.foldl_cons]

theorem select_best_mem (c : PeriodMeta) (cs : List PeriodMeta) :
    select_best c cs ∈ c :: cs := by
  induction cs generalizing c with
  | nil => simp [select_best]
  | cons q qs ih =>
    rw [select_best_step]
    by_cases hb : scoreLtB (scoreVal c) (scoreVal q) = true
    · rw [if_pos hb]
      rcases List.mem_cons.mp (ih q) with h | h
      · rw [h]
        exact List.mem_cons_of_mem c (List.mem_cons_self q qs)
      · exact List.mem_cons_of_mem c (List.mem_cons_of_mem q h)
    · rw [if_neg hb]
      rcases List.mem_cons.mp (ih c) with h | h
      · rw [h]
        exact List.mem_cons_self c (q :: qs)
      · exact List.mem_cons_of_mem c (List.mem_cons_of_mem q h)

theorem scoreLtB_irrefl (a : Nat × Nat × (Int × Int × Int)) :
    scoreLtB a a = false := by
  obtain ⟨a1, a2, ay, am, ad⟩ := a
  simp only [scoreLtB, dateLtB, Bool.or_eq_false_iff, Bool.and_eq_false_iff,
    decide_eq_false_iff_not, not_lt]
  omega

theorem scoreLtB_ge_trans {a b c : Nat × Nat × (Int × Int × Int)}
    (hab : scoreLtB a b = false) (hbc : scoreLtB b c = false) :
    scoreLtB a c = false := by
  obtain ⟨a1, a2, ay, am, ad⟩ := a
  obtain ⟨b1, b2, bY, bm, bd⟩ := b
  obtain ⟨c1, c2, cy, cm, cd⟩ := c
  simp only [scoreLtB, dateLtB, Bool.or_eq_false_iff, Bool.and_eq_false_iff,
    decide_eq_false_iff_not, not_lt, Bool.or_eq_true, Bool.and_eq_true,
    decide_eq_true_eq] at hab hbc ⊢
  omega

theorem scoreLtB_lt_ge {x y z : Nat × Nat × (Int × Int × Int)}
    (hxy : scoreLtB x y = true) (hzy : scoreLtB z y = false) :
    scoreLtB z x = false := by
  obtain ⟨a1, a2, ay, am, ad⟩ := x
  obtain ⟨b1, b2, bY, bm, bd⟩ := y
  obtain ⟨c1, c2, cy, cm, cd⟩ := z
  simp only [scoreLtB, dateLtB, Bool.or_eq_false_iff, Bool.and_eq_false_iff,
    decide_eq_false_iff_not, not_lt, Bool.or_eq_true, Bool.and_eq_true,
    decide_eq_true_eq] at hxy hzy ⊢
  omega

theorem select_best_max (c : PeriodMeta) (cs : List PeriodMeta) :
    ∀ p ∈ c :: cs, scoreLtB (scoreVal (select_best c cs)) (scoreVal p) = false := by
  induction cs generalizing c with
  | nil =>
    intro p hp
    rw [List.mem_singleton] at hp
    rw [hp]
    simp only [select_best, List.foldl_nil]
    exact scoreLtB_irrefl _
  | cons q qs ih =>
    intro p hp
    rw [select_best_step]
    by_cases hb : scoreLtB (scoreVal c) (scoreVal q) = true
    · rw [if_pos hb]
      rcases List.mem_cons.mp hp with heq | hp'
      · rw [heq]
        exact scoreLtB_lt_ge hb (ih q q (List.mem_cons_self q qs))
      · rcases List.mem_cons.mp hp' with heq | hp''
        · rw [heq]
          exact ih q q (List.mem_cons_self q qs)
        · exact ih q p (List.mem_cons_of_mem q hp'')
    · rw [if_neg hb]
      rw [Bool.not_eq_true] at hb
      rcases List.mem_cons.mp hp with heq | hp'
      · rw [heq]
        exact ih c c (List.mem_cons_self c qs)
      · rcases List.mem_cons.mp hp' with heq | hp''
        · rw [heq]
          exact scoreLtB_ge_trans (ih c c (List.mem_cons_self c qs)) hb
        · exact ih c p (List.mem_cons_of_mem c hp'')

theorem flags_of_not_lt {sel p : PeriodMeta}
    (h : scoreLtB (scoreVal sel) (scoreVal p) = false)
    (hq : isQ4 p = true) (hi : isInstant p = true) :
    isQ4 sel = true ∧ isInstant sel = true := by
  cases hq4 : isQ4 sel with
  | false =>
    exfalso
    simp [scoreVal, scoreLtB, hq4, hq, hi] at h
  | true =>
    cases hins : isInstant sel with
    | false =>
      exfalso
      simp [scoreVal, scoreLtB, hq4, hins, hq, hi] at h
    | true => exact ⟨rfl, rfl⟩

/-! ## Claim C5: period resolution -/

/-- C5: period resolution restricts to columns whose `fiscal_year` equals the
target; a candidate with `fiscal_quarter = 4` and `period_type = "instant"`
strictly outranks one lacking both (regardless of end dates); with both flags
equal, the later parsed `end_date` ranks strictly higher (final tie-breaker);
whenever any candidate carries both flags, the selected period carries both
flags, is itself a candidate, and supplies the returned key; with no candidate
for the target year the resolver falls back, in order, to the first declared
column, then to the first row's first value key with a null end date, then to
the sentinel `"UNKNOWN"` with a null end date. Determinism for identical
inputs is inherent: the resolver is a pure function. -/
theorem C5_period_resolution :
    (∀ p q : PeriodMeta, isQ4 p = true → isInstant p = true →
      isQ4 q = false → isInstant q = false →
      scoreLtB (scoreVal q) (scoreVal p) = true) ∧
    (∀ p q : PeriodMeta, isQ4 p = isQ4 q → isInstant p = isInstant q →
      dateLtB (edOf q) (edOf p) = true →
      scoreLtB (scoreVal q) (scoreVal p) = true) ∧
    (∀ (bs : BalanceSheet) (y : Int) (c : PeriodMeta) (cs : List PeriodMeta),
      candidatesOf bs y = c :: cs →
      select_period_key_for_annual_period bs y =
        ((select_best c cs).key, (select_best c cs).end_date) ∧
      select_best c cs ∈ candidatesOf bs y ∧
      ((∃ p ∈ candidatesOf bs y, isQ4 p = true ∧ isInstant p = true) →
        isQ4 (select_best c cs) = true ∧ isInstant (select_best c cs) = true)) ∧
    (∀ (bs : BalanceSheet) (y : Int) (p : PeriodMeta) (ps : List PeriodMeta),
      candidatesOf bs y = [] → load_periods bs.columns = p :: ps →
      select_period_key_for_annual_period bs y = (p.key, p.end_date)) ∧
    (∀ (bs : BalanceSheet) (y : Int) (k : String),
      candidatesOf bs y = [] → load_periods bs.columns = [] →
      firstRowKey bs.rows = some k →
      select_period_key_for_annual_period bs y = (k, none)) ∧
    (∀ (bs : BalanceSheet) (y : Int),
      candidatesOf bs y = [] → load_periods bs.columns = [] →
      firstRowKey bs.rows = none →
      select_period_key_for_annual_period bs y = ("UNKNOWN", none)) := by
  refine ⟨?_, ?_, ?_, ?_, ?_, ?_⟩
  · intro p q hq4 hins hq4' hins'
    simp [scoreVal, scoreLtB, hq4, hins, hq4', hins']
  · intro p q hq4 hins hd
    cases h1 : isQ4 q <;> cases h2 : isInstant q <;>
      simp [scoreVal, scoreLtB, hq4, hins, h1, h2, hd]
  · intro bs y c cs hc
    refine ⟨?_, ?_, ?_⟩
    · unfold select_period_key_for_annual_period
      rw [hc]
    · rw [hc]
      exact select_best_mem c cs
    · rintro ⟨p, hp, hq, hi⟩
      rw [hc] at hp
      exact flags_of_not_lt (select_best_max c cs p hp) hq hi
  · intro bs y p ps hc hl
    unfold select_period_key_for_annual_period
    rw [hc, hl]
  · intro bs y k hc hl hk
    unfold select_period_key_for_annual_period
    rw [hc, hl, hk]
  · intro bs y hc hl hk
    unfold select_period_key_for_annual_period
    rw [hc, hl, hk]

/-- Columns for the C5 witness: the lower-ranked candidate is declared first. -/
def c5bs : BalanceSheet :=
  { company_name := none, entity_name := none, ticker := none, cik := none
    columns := [
      { key := some "d", fiscal_year := some 2024, fiscal_quarter := none,
        period_type := none, end_date := some "2024-12-31" },
      { key := some "k", fiscal_year := some 2024, fiscal_quarter := some 4,
        period_type := some "instant", end_date := some "2024-12-28" },
      { key := some "old", fiscal_year := some 2023, fiscal_quarter := some 4,
        period_type := some "instant", end_date := some "2023-12-30" }]
    rows := [] }

/-- Concrete C5 run: even though the plain fiscal-2024 column is declared
first and has the later end date, the `fiscal_quarter = 4` + `instant` column
is selected; an empty sheet resolves to the sentinel key. -/
theorem C5_period_resolution_witness :
    select_period_key_for_annual_period c5bs 2024 = ("k", some "2024-12-28") ∧
    (∃ c cs, candidatesOf c5bs 2024 = c :: cs ∧
      isQ4 (select_best c cs) = true ∧ isInstant (select_best c cs) = true) ∧
    select_period_key_for_annual_period
      ⟨none, none, none, none, [], []⟩ 2024 = ("UNKNOWN", none) := by
  have hc : candidatesOf c5bs 2024 =
      ⟨"d", some 2024, none, none, some "2024-12-31"⟩ ::
      [⟨"k", some 2024, some 4, some "instant", some "2024-12-28"⟩] := by
    decide
  have h3 := C5_period_resolution.2.2.1 c5bs 2024 _ _ hc
  refine ⟨?_, ?_, ?_⟩
  · rw [h3.1]
    decide
  · refine ⟨_, _, hc, h3.2.2 ⟨⟨"k", some 2024, some 4, some "instant",
      some "2024-12-28"⟩, by rw [hc]; decide, by decide, by decide⟩⟩
  · exact C5_period_resolution.2.2.2.2.2 _ 2024 rfl rfl rfl

/-- Rows for the C6 witness: the label-only match comes first in document
order, the concept match second. -/
def c6rowA : BSRow :=
  { concept := none, tag := none, label := some "Cash and cash equivalents",
    name := none, title := none, values := [] }

/-- The concept-bearing row of the C6 witness. -/
def c6rowB : BSRow :=
  { concept := some "CashCashEquivalentsRestrictedCashAndRestrictedCashEquivalents",
    tag := none, label := some "Other line", name := none, title := none,
    values := [] }

/-- The balance sheet of the C6 witness. -/
def c6bs : BalanceSheet :=
  { company_name := none, entity_name := none, ticker := none, cik := none,
    columns := [], rows := [c6rowA, c6rowB] }

/-- Concrete C6 run: the first row matches the keyword `"cash"` by label, the
second row matches the concept candidate; the concept row wins and the result
is independent of the keyword list. -/
theorem C6_concept_precedence_witness :
    labelKwMatch ["cash"] c6rowA = true ∧
    find_row c6bs
      ["CashCashEquivalentsRestrictedCashAndRestrictedCashEquivalents"]
      ["cash"] = some c6rowB ∧
    find_row c6bs
      ["CashCashEquivalentsRestrictedCashAndRestrictedCashEquivalents"]
      ["cash"] =
    find_row c6bs
      ["CashCashEquivalentsRestrictedCashAndRestrictedCashEquivalents"] [] := by
  refine ⟨by decide, rfl, ?_⟩
  exact (C6_concept_precedence_two_phase.1 c6bs
    ["CashCashEquivalentsRestrictedCashAndRestrictedCashEquivalents"] ["cash"]
    ⟨c6rowB, List.mem_cons_of_mem _ (List.mem_cons_self _ _),
      "CashCashEquivalentsRestrictedCashAndRestrictedCashEquivalents",
      List.mem_cons_self _ _, by decide⟩).1

/-! ## Balance sheet extraction (`extract_required_balance_sheet_data`)

The Python function takes file paths and `json.loads` them; the embedding
takes the decoded documents. `metadata.json`'s `annual_period` is typed
`Option Int` (absence is the fatal case the code checks). -/

/-- The decoded `metadata.json` document. -/
structure Metadata where
  annual_period : Option Int
  ticker : Option String
  cik : Option String
  company_name : Option String

/-- The ordered cash concept candidates of the extractor. -/
def cash_concepts : List String :=
  ["CashCashEquivalentsRestrictedCashAndRestrictedCashEquivalents",
   "CashAndCashEquivalentsAtCarryingValue",
   "CashAndCashEquivalents"]

/-- The cash label keywords of the extractor. -/
def cash_keywords : List String :=
  ["cash and cash equivalents", "restricted cash",
   "cash, cash equivalents and restricted cash",
   "cash cash equivalents restricted cash and restricted cash equivalents"]

/-- The noncontrolling-interest concept candidates of the extractor. -/
def nci_concepts : List String :=
  ["us-gaap:MinorityInterest", "us-gaap:NoncontrollingInterest",
   "us-gaap:NoncontrollingInterests", "us-gaap:NoncontrollingInterestEquity"]

/-- The noncontrolling-interest label keywords of the extractor. -/
def nci_keywords : List String :=
  ["noncontrolling interests", "non controlling interests", "minority interest"]

/-- The `BalanceSheetExtract` dataclass. -/
structure BalanceSheetExtract where
  annual_period : Int
  selected_period_key : String
  selected_period_end_date : Option String
  company_name : String
  ticker : Option String
  cik : Option String
  cash_and_cash_equivalents_mm : Option ℚ
  noncontrolling_interests_mm : ℚ

/-- The non-fatal body of `extract_required_balance_sheet_data`: cash keeps
`None` when no row matched or the value did not normalize; noncontrolling
interests default to `0.0`; both are rounded to 3 decimals. The provenance
dict (citation display only) is not modelled. -/
def extract_ok_value (bs : BalanceSheet) (md : Metadata)
    (annual_period : Int) : BalanceSheetExtract :=
  let pk := select_period_key_for_annual_period bs annual_period
  let cash_row := find_row bs cash_concepts cash_keywords
  let cash_mm := match cash_row with
    | some r => extract_row_value_mm r pk.1
    | none => none
  let nci_row := find_row_by_concept_or_label bs nci_concepts nci_keywords
  let nci_mm := match nci_row with
    | some r => extract_row_value_mm r pk.1
    | none => none
  { annual_period := annual_period
    selected_period_key := pk.1
    selected_period_end_date := pk.2
    company_name := pyOrStrD
      (pyOrStr bs.company_name (pyOrStr bs.entity_name md.company_name))
      "Company"
    ticker := pyOrStr bs.ticker md.ticker
    cik := pyOrStr bs.cik md.cik
    cash_and_cash_equivalents_mm := cash_mm.map round3
    noncontrolling_interests_mm :=
      match nci_mm with
      | some v => round3 v
      | none => 0 }

/-- `extract_required_balance_sheet_data`: fatal only when `annual_period` is
absent from the metadata. -/
def extract_required_balance_sheet_data (bs : BalanceSheet) (md : Metadata) :
    Except String BalanceSheetExtract :=
  match md.annual_period with
  | none => Except.error "metadata.json missing required field: annual_period"
  | some annual_period => Except.ok (extract_ok_value bs md annual_period)

/-! ## Instruments -/

/-- A coupon is either a percentage or the literal `"variable"`. -/
inductive Coupon where
  | pct : ℚ → Coupon
  | var : Coupon
  deriving DecidableEq

/-- A maturity year is an integer (debt parser) or the literal `"Various"`
(lease parser). -/
inductive MYear where
  | yr : Int → MYear
  | various : MYear
  deriving DecidableEq

/-- A debt or lease instrument as both HTML parsers emit it. The `provenance`
dict (source-table index, row text, HTML snippet — used only for citation
display, never read for computation) is not modelled. -/
structure Instrument where
  instrument_name : String
  amount_outstanding_mm : Option ℚ
  amount_available_mm : Option ℚ
  coupon_percent : Option Coupon
  maturity_year : Option MYear
  priority : Option String
  parent_issuer : Option String
  issue_date : Option String
  instrument_type : String
  lien_level : Option String
  deriving DecidableEq

/-! ## capital_structure_builder helpers -/

/-- `_MONTHS` of the builder. -/
def MONTHS : List String :=
  ["January", "February", "March", "April", "May", "June",
   "July", "August", "September", "October", "November", "December"]

/-- Decimal digits of a natural number (fuel-based division loop). -/
def natToDigitsAux : Nat → Nat → List Char
  | 0, _ => []
  | fuel + 1, n =>
    if n = 0 then []
    else natToDigitsAux fuel (n / 10) ++ [Char.ofNat (48 + n % 10)]

/-- Decimal rendering of a natural number. -/
def natToStr (n : Nat) : String :=
  if n = 0 then "0" else String.mk (natToDigitsAux (n + 1) n)

/-- Decimal rendering of an integer (Python `str(int)`). -/
def intToStr (i : Int) : String :=
  if i < 0 then "-" ++ natToStr i.natAbs else natToStr i.natAbs

/-- `iso_to_long_date`: `"2024-12-28" → "December 28, 2024"`. `none` models
the unhandled exceptions on malformed input (wrong number of parts, non-int
part, month index out of range; Python's negative-index wrap for month 0 is
reproduced). -/
def iso_to_long_date (iso : String) : Option String :=
  match splitOn '-' iso.data with
  | [ys, ms, ds] =>
    match pyIntParse ys, pyIntParse ms, pyIntParse ds with
    | some y, some m, some d =>
      let idx : Int := m - 1
      match (if 0 ≤ idx ∧ idx ≤ 11 then MONTHS.get? idx.toNat
             else if -12 ≤ idx ∧ idx < 0 then MONTHS.get? (idx + 12).toNat
             else none) with
      | some month => some (month ++ " " ++ intToStr d ++ ", " ++ intToStr y)
      | none => none
    | _, _, _ => none
  | _ => none

/-- ASCII upper-casing of a character. -/
def upperChar (c : Char) : Char :=
  if 97 ≤ c.toNat ∧ c.toNat ≤ 122 then Char.ofNat (c.toNat - 32) else c

/-- Python `str.capitalize()`: first character upper, rest lower. -/
def capWord : List Char → List Char
  | [] => []
  | c :: t => upperChar c :: lowerL t

/-- Python `str.split()` (on whitespace runs, no empty words). -/
def wordsAux (cur : List Char) : List Char → List (List Char)
  | [] => if cur.isEmpty then [] else [cur.reverse]
  | c :: t =>
    if isSpaceC c then
      if cur.isEmpty then wordsAux [] t else cur.reverse :: wordsAux [] t
    else wordsAux (c :: cur) t

/-- Split a character list into whitespace-separated words. -/
def wordsOf (s : List Char) : List (List Char) := wordsAux [] s

/-- Join character lists with a separator. -/
def joinWith (sep : List Char) : List (List Char) → List Char
  | [] => []
  | [w] => w
  | w :: ws => w ++ sep ++ joinWith sep ws

/-- The uppercase-suffix map of `prettify_company_name`. -/
def suffixMap (s : List Char) : Option (List Char) :=
  if s = "INC".data then some "Inc.".data
  else if s = "CORP".data then some "Corp.".data
  else if s = "CO".data then some "Co.".data
  else if s = "LLC".data then some "LLC".data
  else if s = "LTD".data then some "Ltd.".data
  else none

/-- `prettify_company_name`: title-case an all-uppercase name, turning a
recognized corporate suffix into its abbreviated form after a comma. -/
def prettify_company_name (name : String) : String :=
  if name.isEmpty then name
  else
    let n := pyStrip name.data
    if (n.map upperChar) ≠ n then String.mk n
    else
      match (wordsOf n).reverse with
      | [] => String.mk n
      | suffix :: revBase =>
        let base := revBase.reverse
        let base_title := joinWith " ".data (base.map capWord)
        match suffixMap suffix with
        | some suf =>
          if base.isEmpty then String.mk suf
          else String.mk (base_title ++ ", ".data ++ suf)
        | none => String.mk (joinWith " ".data ((wordsOf n).map capWord))

/-- The running sum of non-null instrument amounts (loop body of
`sum_amounts`). -/
def amountSum (l : List Instrument) : ℚ :=
  l.foldl (fun s i =>
    match i.amount_outstanding_mm with
    | none => s
    | some v => s + v) 0

/-- `sum_amounts`: sum the non-null amounts and round to 3 decimals. -/
def sum_amounts (l : List Instrument) : ℚ := round3 (amountSum l)

/-- The grouping key of `group_by_priority`: `ins.get("priority") or
"Unsecured"`. -/
def priorityKey (i : Instrument) : String := pyOrStrD i.priority "Unsecured"

/-- The members of one priority bucket, in extraction order (Python's
insertion-ordered `dict` grouping queried per canonical bucket). -/
def groupFilter (prio : String) (l : List Instrument) : List Instrument :=
  l.filter (fun i => priorityKey i == prio)

/-- `normalize_instrument_amounts` (applied functionally instead of by
mutation). -/
def normalize_instrument_amounts (l : List Instrument) : List Instrument :=
  l.map (fun i =>
    { i with amount_outstanding_mm := i.amount_outstanding_mm.map round3
             amount_available_mm := i.amount_available_mm.map round3 })

/-- `unsecured_sort_key`: revolver first, then ascending maturity with absent
maturity last. -/
def unsecured_sort_key (i : Instrument) : Nat × Int :=
  if strContains i.instrument_name "Revolving Credit Facility" then (0, 0)
  else
    match i.maturity_year with
    | some (MYear.yr y) => (1, y)
    | _ => (1, 9999)

/-- Strict lexicographic comparison of unsecured sort keys. -/
def unsecLt (a b : Instrument) : Bool :=
  let x := unsecured_sort_key a
  let y := unsecured_sort_key b
  x.1 < y.1 || (x.1 = y.1 && x.2 < y.2)

/-- Insert into a sorted list after all elements not strictly greater
(preserves original order among equal keys, like Python's stable sort). -/
def insOrdered (lt : α → α → Bool) (x : α) : List α → List α
  | [] => [x]
  | y :: ys => if lt x y then x :: y :: ys else y :: insOrdered lt x ys

/-- Stable insertion sort (extensionally Python's stable `sorted`). -/
def stableSortBy (lt : α → α → Bool) (l : List α) : List α :=
  l.foldl (fun acc x => insOrdered lt x acc) []

/-- `ins["priority"] = "Senior Secured"` forced on every lease instrument. -/
def force_lease_priority (l : List Instrument) : List Instrument :=
  l.map (fun i => { i with priority := some "Senior Secured" })

/-- The combined instrument list the builder assembles: leases first (with
forced priority), then debt, all amounts rounded. -/
def combined_instruments (debt_instruments lease_instruments : List Instrument) :
    List Instrument :=
  force_lease_priority (normalize_instrument_amounts lease_instruments) ++
    normalize_instrument_amounts debt_instruments

/-! ## capital_structure_builder output -/

/-- One priority group of the built document. -/
structure PriorityGroup where
  priority : String
  instruments : List Instrument
  subtotal_outstanding_mm : ℚ
  deriving DecidableEq

/-- One issuer group of the built document. -/
structure IssuerGroup where
  issuer : String
  priority_groups : List PriorityGroup
  deriving DecidableEq

/-- `built_capital_structure.json` (provenance object omitted: citation
display only). -/
structure BuiltDoc where
  company_name : String
  company_name_display : String
  ticker : Option String
  cik : Option String
  annual_period : Int
  period_end_date_text : String
  selected_period_end_date : String
  issuer_groups : List IssuerGroup
  total_debt_mm : ℚ
  cash_mm : ℚ
  net_debt_mm : ℚ
  noncontrolling_interests_mm : ℚ
  market_cap_mm : ℚ
  enterprise_value_mm : ℚ
  notes : List String
  deriving DecidableEq

/-- The three canonical priority buckets in display order. -/
def canonical_priorities : List String :=
  ["Senior Secured", "Unsecured", "Subordinated"]

/-- The builder's priority-group loop: only the three canonical buckets, each
skipped when empty, the `Unsecured` bucket re-sorted by `unsecured_sort_key`. -/
def build_priority_groups (all : List Instrument) : List PriorityGroup :=
  canonical_priorities.filterMap fun prio =>
    let insts := groupFilter prio all
    if insts.isEmpty then none
    else
      let insts' := if prio = "Unsecured" then stableSortBy unsecLt insts else insts
      some ⟨prio, insts', round3 (sum_amounts insts')⟩

/-- The fixed notes array of the builder. -/
def builder_notes : List String :=
  ["Market Cap and most recent FY EBITDA come from Seeking Alpha",
   "All debt amounts come from the most recent 10-K filing",
   "Following amounts are hardcoded: price, yield"]

/-- The document assembled once the fatal checks passed. `cash_mm` and
`nci_mm` reproduce `round3(...) or 0.0` (for a `0.0` value the `or` picks the
literal `0.0`, numerically identical to the rounded value). -/
def build_doc (ext : BalanceSheetExtract) (iso_end period_end_text : String)
    (debt_instruments lease_instruments : List Instrument)
    (market_cap_mm : ℚ) : BuiltDoc :=
  let company_name_raw := pyOrStrD (some ext.company_name) "Company"
  let company_name_display := prettify_company_name company_name_raw
  let all_instruments := combined_instruments debt_instruments lease_instruments
  let total_debt_mm := round3 (sum_amounts all_instruments)
  let cash_mm := match ext.cash_and_cash_equivalents_mm with
    | none => 0
    | some c => round3 c
  let nci_mm := round3 ext.noncontrolling_interests_mm
  let net_debt_mm := round3 (total_debt_mm - cash_mm)
  let enterprise_value_mm := round3 (net_debt_mm + nci_mm + market_cap_mm)
  { company_name := company_name_raw
    company_name_display := company_name_display
    ticker := ext.ticker
    cik := ext.cik
    annual_period := ext.annual_period
    period_end_date_text := period_end_text
    selected_period_end_date := iso_end
    issuer_groups := [⟨company_name_display, build_priority_groups all_instruments⟩]
    total_debt_mm := total_debt_mm
    cash_mm := cash_mm
    net_debt_mm := net_debt_mm
    noncontrolling_interests_mm := nci_mm
    market_cap_mm := round3 market_cap_mm
    enterprise_value_mm := enterprise_value_mm
    notes := builder_notes }

/-- `build_capital_structure`. The Python function reads the four documents
from disk and runs the two HTML parsers itself; the embedding receives the
decoded balance sheet and metadata and the two parsers' instrument lists
(parsing is modelled separately), which is the same data flow. The `Except`
errors model the `raise`s that escape the function. -/
def build_capital_structure (bs : BalanceSheet) (md : Metadata)
    (debt_instruments lease_instruments : List Instrument)
    (market_cap_mm : ℚ) : Except String BuiltDoc :=
  match extract_required_balance_sheet_data bs md with
  | Except.error e => Except.error e
  | Except.ok ext =>
    match ext.selected_period_end_date with
    | none => Except.error "Could not derive selected_period_end_date from balance sheet."
    | some iso_end =>
      if iso_end.isEmpty then
        Except.error "Could not derive selected_period_end_date from balance sheet."
      else
        match iso_to_long_date iso_end with
        | none => Except.error "ValueError in iso_to_long_date: malformed ISO date"
        | some period_end_text =>
          Except.ok (build_doc ext iso_end period_end_text
            debt_instruments lease_instruments market_cap_mm)

/-! ## Claim C1: arithmetic identities of the built document -/

theorem isM3_amountSum_aux (l : List Instrument) (acc : ℚ)
    (hacc : IsM3 acc)
    (h : ∀ i ∈ l, ∀ v, i.amount_outstanding_mm = some v → IsM3 v) :
    IsM3 (l.foldl (fun s i =>
      match i.amount_outstanding_mm with
      | none => s
      | some v => s + v) acc) := by
  induction l generalizing acc with
  | nil => exact hacc
  | cons i t ih =>
    rw [List.foldl_cons]
    have ht : ∀ j ∈ t, ∀ v, j.amount_outstanding_mm = some v → IsM3 v :=
      fun j hj => h j (List.mem_cons_of_mem i hj)
    cases hv : i.amount_outstanding_mm with
    | none => exact ih acc hacc ht
    | some v =>
      exact ih (acc + v)
        (isM3_add hacc (h i (List.mem_cons_self i t) v hv)) ht

theorem isM3_amountSum (l : List Instrument)
    (h : ∀ i ∈ l, ∀ v, i.amount_outstanding_mm = some v → IsM3 v) :
    IsM3 (amountSum l) :=
  isM3_amountSum_aux l 0 isM3_zero h

theorem combined_amounts_isM3 (debt lease : List Instrument) :
    ∀ i ∈ combined_instruments debt lease, ∀ v,
      i.amount_outstanding_mm = some v → IsM3 v := by
  intro i hi v hv
  rcases List.mem_append.mp hi with h | h
  · rcases List.mem_map.mp h with ⟨j, hj, rfl⟩
    rcases List.mem_map.mp hj with ⟨k, hk, rfl⟩
    simp only [Option.map_eq_some'] at hv
    obtain ⟨w, hw, rfl⟩ := hv
    exact isM3_round3 w
  · rcases List.mem_map.mp h with ⟨k, hk, rfl⟩
    simp only [Option.map_eq_some'] at hv
    obtain ⟨w, hw, rfl⟩ := hv
    exact isM3_round3 w

theorem build_doc_identities (ext : BalanceSheetExtract)
    (iso_end period_end_text : String)
    (debt lease : List Instrument) (mc : ℚ) :
    (build_doc ext iso_end period_end_text debt lease mc).total_debt_mm =
      amountSum (combined_instruments debt lease) ∧
    (build_doc ext iso_end period_end_text debt lease mc).net_debt_mm =
      (build_doc ext iso_end period_end_text debt lease mc).total_debt_mm -
      (build_doc ext iso_end period_end_text debt lease mc).cash_mm ∧
    (build_doc ext iso_end period_end_text debt lease mc).enterprise_value_mm =
      (build_doc ext iso_end period_end_text debt lease mc).net_debt_mm +
      (build_doc ext iso_end period_end_text debt lease mc).noncontrolling_interests_mm +
      (build_doc ext iso_end period_end_text debt lease mc).market_cap_mm := by
  have hSum : IsM3 (amountSum (combined_instruments debt lease)) :=
    isM3_amountSum _ (combined_amounts_isM3 debt lease)
  have ht0 : (build_doc ext iso_end period_end_text debt lease mc).total_debt_mm =
      round3 (sum_amounts (combined_instruments debt lease)) := rfl
  have htotal : (build_doc ext iso_end period_end_text debt lease mc).total_debt_mm =
      amountSum (combined_instruments debt lease) := by
    rw [ht0, sum_amounts, round3_eq_of_isM3 (isM3_round3 _),
      round3_eq_of_isM3 hSum]
  have hcash : IsM3 (build_doc ext iso_end period_end_text debt lease mc).cash_mm := by
    show IsM3 (match ext.cash_and_cash_equivalents_mm with
      | none => (0 : ℚ)
      | some c => round3 c)
    cases ext.cash_and_cash_equivalents_mm with
    | none => exact isM3_zero
    | some c => exact isM3_round3 c
  have htotalM3 : IsM3 (build_doc ext iso_end period_end_text debt lease mc).total_debt_mm := by
    rw [ht0]; exact isM3_round3 _
  have hn0 : (build_doc ext iso_end period_end_text debt lease mc).net_debt_mm =
      round3 ((build_doc ext iso_end period_end_text debt lease mc).total_debt_mm -
        (build_doc ext iso_end period_end_text debt lease mc).cash_mm) := rfl
  have hnet : (build_doc ext iso_end period_end_text debt lease mc).net_debt_mm =
      (build_doc ext iso_end period_end_text debt lease mc).total_debt_mm -
      (build_doc ext iso_end period_end_text debt lease mc).cash_mm := by
    rw [hn0]
    exact round3_eq_of_isM3 (isM3_sub htotalM3 hcash)
  have hnetM3 : IsM3 (build_doc ext iso_end period_end_text debt lease mc).net_debt_mm := by
    rw [hn0]; exact isM3_round3 _
  have hnciM3 : IsM3
      (build_doc ext iso_end period_end_text debt lease mc).noncontrolling_interests_mm :=
    isM3_round3 _
  refine ⟨htotal, hnet, ?_⟩
  have he0 : (build_doc ext iso_end period_end_text debt lease mc).enterprise_value_mm =
      round3 ((build_doc ext iso_end period_end_text debt lease mc).net_debt_mm +
        (build_doc ext iso_end period_end_text debt lease mc).noncontrolling_interests_mm +
        mc) := rfl
  have hm0 : (build_doc ext iso_end period_end_text debt lease mc).market_cap_mm =
      round3 mc := rfl
  rw [he0, hm0]
  have h2 : (build_doc ext iso_end period_end_text debt lease mc).net_debt_mm +
      (build_doc ext iso_end period_end_text debt lease mc).noncontrolling_interests_mm +
      mc =
      ((build_doc ext iso_end period_end_text debt lease mc).net_debt_mm +
       (build_doc ext iso_end period_end_text debt lease mc).noncontrolling_interests_mm) +
      mc := by ring
  rw [h2, round3_int_add _ mc (isM3_add hnetM3 hnciM3)]

theorem build_ok_doc {bs : BalanceSheet} {md : Metadata}
    {debt lease : List Instrument} {mc : ℚ} {doc : BuiltDoc}
    (h : build_capital_structure bs md debt lease mc = Except.ok doc) :
    ∃ ext iso_end period_end_text,
      extract_required_balance_sheet_data bs md = Except.ok ext ∧
      doc = build_doc ext iso_end period_end_text debt lease mc := by
  unfold build_capital_structure at h
  split at h
  · exact Except.noConfusion h
  · rename_i ext hext
    split at h
    · exact Except.noConfusion h
    · rename_i iso hiso
      split at h
      · exact Except.noConfusion h
      · split at h
        · exact Except.noConfusion h
        · rename_i txt hil
          exact ⟨ext, iso, txt, hext, (Except.ok.injEq _ _ |>.mp h.symm)⟩

/-- C1: for every successfully built document, `total_debt_mm` equals — in
fact exactly, hence within the claimed 0.001 tolerance — the sum of
`amount_outstanding_mm` over all combined instruments (lease and debt,
including any instrument not placed in a canonical priority group);
`net_debt_mm = total_debt_mm − cash_mm` and `enterprise_value_mm =
net_debt_mm + noncontrolling_interests_mm + market_cap_mm` hold exactly on
the rounded document fields. -/
theorem C1_built_document_identities
    (bs : BalanceSheet) (md : Metadata) (debt lease : List Instrument)
    (mc : ℚ) (doc : BuiltDoc)
    (h : build_capital_structure bs md debt lease mc = Except.ok doc) :
    doc.total_debt_mm = amountSum (combined_instruments debt lease) ∧
    |doc.total_debt_mm - amountSum (combined_instruments debt lease)| ≤ 1 / 1000 ∧
    doc.net_debt_mm = doc.total_debt_mm - doc.cash_mm ∧
    doc.enterprise_value_mm = doc.net_debt_mm +
      doc.noncontrolling_interests_mm + doc.market_cap_mm := by
  obtain ⟨ext, iso, txt, _, rfl⟩ := build_ok_doc h
  obtain ⟨h1, h2, h3⟩ := build_doc_identities ext iso txt debt lease mc
  refine ⟨h1, ?_, h2, h3⟩
  rw [h1]
  simp

/-- A one-column fiscal-2024 balance sheet with no cash/NCI rows (shared
concrete input for builder runs). -/
def exBS : BalanceSheet :=
  { company_name := some "ADVANCE AUTO PARTS INC", entity_name := none,
    ticker := some "AAP", cik := none,
    columns := [
      { key := some "FY2024", fiscal_year := some 2024,
        fiscal_quarter := some 4, period_type := some "instant",
        end_date := some "2024-12-28" }],
    rows := [] }

/-- Metadata with the required `annual_period` present. -/
def exMD : Metadata :=
  { annual_period := some 2024, ticker := none, cik := none,
    company_name := none }

/-- A single Unsecured debt instrument of 300 $mm. -/
def exBond : Instrument :=
  { instrument_name := "5.90% Senior Unsecured Notes due March 9, 2026",
    amount_outstanding_mm := some 300, amount_available_mm := none,
    coupon_percent := some (Coupon.pct (59 / 10)),
    maturity_year := some (MYear.yr 2026), priority := some "Unsecured",
    parent_issuer := none, issue_date := none, instrument_type := "bond",
    lien_level := none }

/-- Placeholder document (for total `Option` projections only). -/
def emptyDoc : BuiltDoc :=
  { company_name := "", company_name_display := "", ticker := none,
    cik := none, annual_period := 0, period_end_date_text := "",
    selected_period_end_date := "", issuer_groups := [], total_debt_mm := 0,
    cash_mm := 0, net_debt_mm := 0, noncontrolling_interests_mm := 0,
    market_cap_mm := 0, enterprise_value_mm := 0, notes := [] }

/-- The document built from the shared concrete inputs. -/
def c1doc : BuiltDoc :=
  (build_capital_structure exBS exMD [exBond] [] 2592).toOption.getD emptyDoc

/-- Concrete C1 run: the build succeeds and all three identities hold, with
the instrument sum evaluating to 300. -/
theorem C1_built_document_identities_witness :
    build_capital_structure exBS exMD [exBond] [] 2592 = Except.ok c1doc ∧
    c1doc.total_debt_mm = 300 ∧
    c1doc.net_debt_mm = c1doc.total_debt_mm - c1doc.cash_mm ∧
    c1doc.enterprise_value_mm = c1doc.net_debt_mm +
      c1doc.noncontrolling_interests_mm + c1doc.market_cap_mm := by
  have hb : build_capital_structure exBS exMD [exBond] [] 2592 =
      Except.ok c1doc := rfl
  have h := C1_built_document_identities exBS exMD [exBond] [] 2592 c1doc hb
  refine ⟨hb, ?_, h.2.2.1, h.2.2.2⟩
  rw [h.1]
  have h1 : amountSum (combined_instruments [exBond] []) = 0 + round3 300 := rfl
  rw [h1, round3_eq_of_isM3 ⟨300000, by norm_num⟩]
  norm_num

/-! ## Claim C9: exactly two fatal conditions -/

/-- C9: under the documented input interface (`end_date`, when present, is an
ISO calendar date, so `iso_to_long_date` succeeds on it), exactly two
structural conditions abort the build, each with its own distinct error
message: `annual_period` missing from the metadata, and no resolvable
period-end date (absent or empty); with `annual_period` present and a
non-empty well-formed resolved end date, the build returns a document for
every balance sheet, metadata, instrument list and market cap — every other
missing input degrades into null/default/empty values. -/
theorem C9_exactly_two_fatal_conditions
    (bs : BalanceSheet) (md : Metadata) (debt lease : List Instrument)
    (mc : ℚ) :
    (md.annual_period = none →
      build_capital_structure bs md debt lease mc =
        Except.error "metadata.json missing required field: annual_period") ∧
    (∀ y : Int, md.annual_period = some y →
      ((select_period_key_for_annual_period bs y).2 = none ∨
       (select_period_key_for_annual_period bs y).2 = some "") →
      build_capital_structure bs md debt lease mc =
        Except.error
          "Could not derive selected_period_end_date from balance sheet.") ∧
    (∀ (y : Int) (iso : String), md.annual_period = some y →
      (select_period_key_for_annual_period bs y).2 = some iso →
      iso.isEmpty = false → (iso_to_long_date iso).isSome →
      ∃ doc, build_capital_structure bs md debt lease mc = Except.ok doc) ∧
    ("metadata.json missing required field: annual_period" ≠
      "Could not derive selected_period_end_date from balance sheet.") := by
  have hred : ∀ y : Int, md.annual_period = some y →
      build_capital_structure bs md debt lease mc =
      (match (select_period_key_for_annual_period bs y).2 with
       | none => Except.error
           "Could not derive selected_period_end_date from balance sheet."
       | some iso_end =>
         if iso_end.isEmpty then
           Except.error
             "Could not derive selected_period_end_date from balance sheet."
         else
           match iso_to_long_date iso_end with
           | none => Except.error
               "ValueError in iso_to_long_date: malformed ISO date"
           | some period_end_text =>
             Except.ok (build_doc (extract_ok_value bs md y) iso_end
               period_end_text debt lease mc)) := by
    intro y hy
    unfold build_capital_structure extract_required_balance_sheet_data
    rw [hy]
    rfl
  refine ⟨?_, ?_, ?_, by decide⟩
  · intro h
    unfold build_capital_structure extract_required_balance_sheet_data
    rw [h]
  · intro y hy hend
    rw [hred y hy]
    rcases hend with h | h <;> (rw [h]; try rfl)
  · intro y iso hy hiso hne hlong
    obtain ⟨txt, htxt⟩ := Option.isSome_iff_exists.mp hlong
    refine ⟨build_doc (extract_ok_value bs md y) iso txt debt lease mc, ?_⟩
    rw [hred y hy, hiso]
    simp only [hne, Bool.false_eq_true, if_false, htxt]

/-- Concrete C9 runs: metadata without `annual_period` gives the first fatal
error; an empty balance sheet (no resolvable end date) gives the second; the
shared well-formed inputs build a document. -/
theorem C9_exactly_two_fatal_conditions_witness :
    build_capital_structure exBS
      { annual_period := none, ticker := none, cik := none,
        company_name := none } [] [] 0 =
      Except.error "metadata.json missing required field: annual_period" ∧
    build_capital_structure
      { company_name := none, entity_name := none, ticker := none,
        cik := none, columns := [], rows := [] } exMD [] [] 0 =
      Except.error
        "Could not derive selected_period_end_date from balance sheet." ∧
    (∃ doc, build_capital_structure exBS exMD [exBond] [] 2592 =
      Except.ok doc) := by
  refine ⟨?_, ?_, ?_⟩
  · exact (C9_exactly_two_fatal_conditions exBS
      { annual_period := none, ticker := none, cik := none,
        company_name := none } [] [] 0).1 rfl
  · exact (C9_exactly_two_fatal_conditions
      { company_name := none, entity_name := none, ticker := none,
        cik := none, columns := [], rows := [] } exMD [] [] 0).2.1 2024 rfl
      (Or.inl rfl)
  · exact (C9_exactly_two_fatal_conditions exBS exMD [exBond] [] 2592).2.2.1
      2024 "2024-12-28" rfl rfl rfl (by decide)

/-! ## backend/app/bonus.py — SelfAssessmentValidator -/

/-- `bonus._safe_float`: plain `float(x)` with `None` preserved; no comma
stripping (unlike the balance-sheet `_safe_float`). -/
def bonus_safe_float : JVal → Option ℚ
  | JVal.null => none
  | JVal.num q => some q
  | JVal.bool b => some (if b then 1 else 0)
  | JVal.str s => pyFloat (pyStrip s.data)
  | JVal.arr _ => none
  | JVal.obj _ => none

/-- Python `str(x)` as far as the maturity scan needs it. JSON numbers are
rendered as exact integers when integral (a JSON float such as `2150.0` would
render `"2150.0"` in CPython and fail `int(...)`; integral JSON values are
the modelled inputs). -/
def jvalStr : JVal → String
  | JVal.null => "None"
  | JVal.bool b => if b then "True" else "False"
  | JVal.num q =>
    if q.den = 1 then intToStr q.num
    else intToStr q.num ++ "/" ++ natToStr q.den
  | JVal.str s => s
  | JVal.arr _ => "[...]"
  | JVal.obj _ => "{...}"

/-- Python truthiness of a JSON value. -/
def pyTruthyJ : JVal → Bool
  | JVal.null => false
  | JVal.bool b => b
  | JVal.num q => q ≠ 0
  | JVal.str s => ¬ s.isEmpty
  | JVal.arr xs => ¬ xs.isEmpty
  | JVal.obj fs => ¬ fs.isEmpty

/-- An instrument dict as the validator reads it: the five keys it accesses,
each `JVal.null` when absent. -/
structure VInst where
  instrument_name : JVal
  amount_outstanding_mm : JVal
  amount_outstanding : JVal
  priority : JVal
  maturity : JVal

/-- The validator's view of a document: the `_find_value` key chains
(`total_debt_mm`/`total_debt`, `cash_and_cash_equivalents_mm`/`cash_mm`/…)
collapsed to one optional numeric field each, plus the top-level
`instruments` list (`built.get("instruments") or []`). -/
structure VDoc where
  total_debt : Option ℚ
  cash : Option ℚ
  nci : Option ℚ
  market_cap : Option ℚ
  net_debt : Option ℚ
  ev : Option ℚ
  instruments : List VInst

/-- The validator input corresponding to a dict returned by
`build_capital_structure`: that dict carries numeric `total_debt_mm`,
`cash_mm`, `net_debt_mm`, `noncontrolling_interests_mm`, `market_cap_mm` and
`enterprise_value_mm` keys (each the first hit of its `_find_value` chain)
and has no top-level `"instruments"` key — the instruments sit inside
`issuer_groups`/`priority_groups` — so `built.get("instruments") or []` is
the empty list. -/
def vdocOfBuilt (d : BuiltDoc) : VDoc :=
  { total_debt := some d.total_debt_mm
    cash := some d.cash_mm
    nci := some d.noncontrolling_interests_mm
    market_cap := some d.market_cap_mm
    net_debt := some d.net_debt_mm
    ev := some d.enterprise_value_mm
    instruments := [] }

/-- One validation check (`add_check`). -/
structure VCheck where
  id : String
  status : String
  message : String
  delta : Option ℚ
  deriving DecidableEq

/-- The self-assessment report. -/
structure VReport where
  score : Int
  checks : List VCheck
  deriving DecidableEq

/-- Plain rendering of a rational for check messages (CPython formats the
float delta; no statement below depends on the digits). -/
def ratStr (q : ℚ) : String := intToStr q.num ++ "/" ++ natToStr q.den

/-- `_sum_instrument_outstanding`: sum `amount_outstanding_mm`, falling back
to `amount_outstanding`, skipping instruments with neither. -/
def sum_instrument_outstanding (d : VDoc) : ℚ :=
  d.instruments.foldl (fun total inst =>
    match bonus_safe_float inst.amount_outstanding_mm with
    | some amt => total + amt
    | none =>
      match bonus_safe_float inst.amount_outstanding with
      | some amt => total + amt
      | none => total) 0

/-- The total-debt check: three-tier tolerance on `|total_debt − Σ
instruments|`, a warn when total debt is missing. -/
def totalDebtCheck (total_debt : Option ℚ) (sum_inst : ℚ) : VCheck :=
  match total_debt with
  | some td =>
    let delta := |td - sum_inst|
    if delta ≤ 1 / 20 then
      ⟨"arith_total_debt", "pass",
        "Total Debt matches sum of instruments (Δ=" ++ ratStr (round3 delta) ++ ").",
        some (round3 delta)⟩
    else if delta ≤ 1 / 2 then
      ⟨"arith_total_debt", "warn",
        "Total Debt slightly differs from sum of instruments (Δ=" ++ ratStr (round3 delta) ++ ").",
        some (round3 delta)⟩
    else
      ⟨"arith_total_debt", "fail",
        "Total Debt differs from sum of instruments (Δ=" ++ ratStr (round3 delta) ++ ").",
        some (round3 delta)⟩
  | none => ⟨"arith_total_debt", "warn", "Total Debt not found in built output.", none⟩

/-- The net-debt check: computed only when total debt, cash and net debt are
all present; otherwise the skipped warn. -/
def netDebtCheck (total_debt cash net_debt : Option ℚ) : VCheck :=
  match total_debt, cash, net_debt with
  | some td, some c, some nd =>
    let delta := |nd - (td - c)|
    if delta ≤ 1 / 20 then
      ⟨"arith_net_debt", "pass",
        "Net Debt matches Total Debt - Cash (Δ=" ++ ratStr (round3 delta) ++ ").",
        some (round3 delta)⟩
    else if delta ≤ 1 / 2 then
      ⟨"arith_net_debt", "warn",
        "Net Debt slightly differs (Δ=" ++ ratStr (round3 delta) ++ ").",
        some (round3 delta)⟩
    else
      ⟨"arith_net_debt", "fail",
        "Net Debt differs (Δ=" ++ ratStr (round3 delta) ++ ").",
        some (round3 delta)⟩
  | _, _, _ =>
    ⟨"arith_net_debt", "warn",
      "Net Debt check skipped (missing Total Debt/Cash/Net Debt).", none⟩

/-- The enterprise-value check. -/
def evCheck (ev net_debt nci market_cap : Option ℚ) : VCheck :=
  match ev, net_debt, nci, market_cap with
  | some e, some nd, some n, some m =>
    let delta := |e - (nd + n + m)|
    if delta ≤ 1 / 20 then
      ⟨"arith_enterprise_value", "pass",
        "EV matches Net Debt + NCI + Market Cap (Δ=" ++ ratStr (round3 delta) ++ ").",
        some (round3 delta)⟩
    else if delta ≤ 1 / 2 then
      ⟨"arith_enterprise_value", "warn",
        "EV slightly differs (Δ=" ++ ratStr (round3 delta) ++ ").",
        some (round3 delta)⟩
    else
      ⟨"arith_enterprise_value", "fail",
        "EV differs (Δ=" ++ ratStr (round3 delta) ++ ").",
        some (round3 delta)⟩
  | _, _, _, _ =>
    ⟨"arith_enterprise_value", "warn",
      "EV check skipped (missing EV/Net Debt/NCI/Market Cap).", none⟩

/-- Is the value Python `None`? -/
def isNullJ : JVal → Bool
  | JVal.null => true
  | _ => false

/-- Is the maturity value in the excluded set `(None, "", "—")`? -/
def maturityExcluded : JVal → Bool
  | JVal.null => true
  | JVal.str s => s = "" || s = "—"
  | _ => false

/-- The per-instrument sanity loop: counts missing name/priority and negative
amounts; on the first maturity that parses as an integer outside [1990, 2100]
it emits the warn check and `break`s (so later instruments are not scanned at
all, including for the counters). -/
def sanity_scan : List VInst → Nat → Nat → Nat × Nat × Option VCheck
  | [], mf, na => (mf, na, none)
  | inst :: rest, mf, na =>
    let mf' := if ¬ pyTruthyJ inst.instrument_name ∨ isNullJ inst.priority
      then mf + 1 else mf
    let na' := match bonus_safe_float inst.amount_outstanding_mm with
      | some a => if a < -(1 / 1000000) then na + 1 else na
      | none => na
    if maturityExcluded inst.maturity then sanity_scan rest mf' na'
    else
      match pyIntParse (jvalStr inst.maturity).data with
      | some y =>
        if y < 1990 ∨ y > 2100 then
          (mf', na', some ⟨"sanity_maturity", "warn",
            "Suspicious maturity year: " ++ intToStr y ++ " for " ++
              jvalStr inst.instrument_name ++ ".", none⟩)
        else sanity_scan rest mf' na'
      | none => sanity_scan rest mf' na'

/-- The completeness check. -/
def completenessCheck (missing_fields : Nat) : VCheck :=
  if missing_fields = 0 then
    ⟨"completeness", "pass",
      "All instruments have basic required fields (name/priority).", none⟩
  else
    ⟨"completeness", "warn",
      natToStr missing_fields ++ " instrument(s) missing name/priority.", none⟩

/-- The negative-amount check. -/
def negAmountsCheck (neg_amounts : Nat) : VCheck :=
  if neg_amounts = 0 then
    ⟨"sanity_negative_amounts", "pass",
      "No negative outstanding amounts detected.", none⟩
  else
    ⟨"sanity_negative_amounts", "fail",
      natToStr neg_amounts ++ " instrument(s) have negative outstanding amounts.", none⟩

/-- The report score: 100 minus 20 per fail and 5 per warn, clamped to
[0, 100]. -/
def scoreOf (checks : List VCheck) : Int :=
  max 0 (min 100 (100 -
    20 * ((checks.filter (fun c => c.status == "fail")).length : Int) -
    5 * ((checks.filter (fun c => c.status == "warn")).length : Int)))

/-- The sanity-scan result turned into the (at most one) maturity check. -/
def maturityChecks (scan : Nat × Nat × Option VCheck) : List VCheck :=
  match scan.2.2 with
  | some c => [c]
  | none => []

/-- `run_self_assessment`: the ordered check list and the clamped score. -/
def run_self_assessment (d : VDoc) : VReport :=
  let scan := sanity_scan d.instruments 0 0
  let checks :=
    [totalDebtCheck d.total_debt (sum_instrument_outstanding d),
     netDebtCheck d.total_debt d.cash d.net_debt,
     evCheck d.ev d.net_debt d.nci d.market_cap] ++
    maturityChecks scan ++
    [completenessCheck scan.1, negAmountsCheck scan.2.1]
  ⟨scoreOf checks, checks⟩

/-! ## Claim C2: missing cash and missing NCI -/

theorem round3_zero : round3 0 = 0 := round3_eq_of_isM3 isM3_zero

theorem extract_ok_inv {bs : BalanceSheet} {md : Metadata}
    {ext : BalanceSheetExtract}
    (h : extract_required_balance_sheet_data bs md = Except.ok ext) :
    ∃ y, md.annual_period = some y ∧ ext = extract_ok_value bs md y := by
  unfold extract_required_balance_sheet_data at h
  split at h
  · exact Except.noConfusion h
  · rename_i y hy
    exact ⟨y, hy, (Except.ok.injEq _ _ |>.mp h).symm⟩

theorem totalDebtCheck_id (td : Option ℚ) (s : ℚ) :
    (totalDebtCheck td s).id = "arith_total_debt" := by
  unfold totalDebtCheck
  cases td
  · rfl
  · dsimp only
    split
    · rfl
    · split <;> rfl

theorem netDebtCheck_exact {t c n : ℚ} (h : n = t - c) :
    netDebtCheck (some t) (some c) (some n) =
      ⟨"arith_net_debt", "pass",
        "Net Debt matches Total Debt - Cash (Δ=" ++ ratStr 0 ++ ").",
        some 0⟩ := by
  subst h
  unfold netDebtCheck
  have hd : |t - c - (t - c)| = (0 : ℚ) := by simp
  dsimp only
  rw [hd, round3_zero]
  norm_num

theorem netMatch_ne_skipped (t : String) :
    ("Net Debt matches Total Debt - Cash (Δ=" ++ t) ≠
      "Net Debt check skipped (missing Total Debt/Cash/Net Debt)." := by
  intro h
  have h2 := congrArg (fun s => s.data.take 10) h
  simp only [String.data_append] at h2
  rw [List.take_append_of_le_length (by decide)] at h2
  exact absurd h2 (by decide)

theorem missing_cash_builds_zero
    (bs : BalanceSheet) (md : Metadata) (debt lease : List Instrument)
    (mc : ℚ) (doc : BuiltDoc)
    (hok : build_capital_structure bs md debt lease mc = Except.ok doc)
    (hcash : find_row bs cash_concepts cash_keywords = none) :
    doc.cash_mm = 0 ∧
    (run_self_assessment (vdocOfBuilt doc)).checks.find?
        (fun c => c.id == "arith_net_debt") =
      some ⟨"arith_net_debt", "pass",
        "Net Debt matches Total Debt - Cash (Δ=" ++ ratStr 0 ++ ").",
        some 0⟩ := by
  obtain ⟨ext, iso, txt, hext, rfl⟩ := build_ok_doc hok
  obtain ⟨y, hy, rfl⟩ := extract_ok_inv hext
  have hcnone : (extract_ok_value bs md y).cash_and_cash_equivalents_mm = none := by
    have h0 : (extract_ok_value bs md y).cash_and_cash_equivalents_mm =
        (match find_row bs cash_concepts cash_keywords with
         | some r => extract_row_value_mm r
             (select_period_key_for_annual_period bs y).1
         | none => none).map round3 := rfl
    rw [h0, hcash]
    rfl
  have hc0 : (build_doc (extract_ok_value bs md y) iso txt debt lease mc).cash_mm = 0 := by
    have h0 : (build_doc (extract_ok_value bs md y) iso txt debt lease mc).cash_mm =
        (match (extract_ok_value bs md y).cash_and_cash_equivalents_mm with
         | none => (0 : ℚ)
         | some c => round3 c) := rfl
    rw [h0, hcnone]
  refine ⟨hc0, ?_⟩
  have hid := build_doc_identities (extract_ok_value bs md y) iso txt debt lease mc
  have hnet := netDebtCheck_exact hid.2.1
  have hchecks : (run_self_assessment
      (vdocOfBuilt (build_doc (extract_ok_value bs md y) iso txt debt lease mc))).checks =
      [totalDebtCheck
        (some (build_doc (extract_ok_value bs md y) iso txt debt lease mc).total_debt_mm)
        (sum_instrument_outstanding
          (vdocOfBuilt (build_doc (extract_ok_value bs md y) iso txt debt lease mc))),
       netDebtCheck
        (some (build_doc (extract_ok_value bs md y) iso txt debt lease mc).total_debt_mm)
        (some (build_doc (extract_ok_value bs md y) iso txt debt lease mc).cash_mm)
        (some (build_doc (extract_ok_value bs md y) iso txt debt lease mc).net_debt_mm),
       evCheck
        (some (build_doc (extract_ok_value bs md y) iso txt debt lease mc).enterprise_value_mm)
        (some (build_doc (extract_ok_value bs md y) iso txt debt lease mc).net_debt_mm)
        (some (build_doc (extract_ok_value bs md y) iso txt debt lease mc).noncontrolling_interests_mm)
        (some (build_doc (extract_ok_value bs md y) iso txt debt lease mc).market_cap_mm),
       completenessCheck 0, negAmountsCheck 0] := rfl
  rw [hchecks]
  rw [List.find?_cons_of_neg, List.find?_cons_of_pos]
  · rw [hnet]
  · rw [hnet]
    decide
  · simp [totalDebtCheck_id]

/-- The document built from the shared inputs, for the C2 analysis (the
balance sheet has no cash row). -/
def c2doc : BuiltDoc :=
  (build_capital_structure exBS exMD [exBond] [] 2592).toOption.getD emptyDoc

/-- C2 counterexample: on a balance sheet with no matching cash row, the
extracted cash is indeed null, but the built document does NOT carry the
missing cash through — `build_capital_structure` defaults `cash_mm` to `0.0`
(`round3(...) or 0.0`), and the validator's net-debt check on that document is
a computed `pass` (net debt equals total debt minus zero cash), not the
`'skipped'` warn the claim requires. -/
theorem C2_missing_cash_counterexample :
    find_row exBS cash_concepts cash_keywords = none ∧
    (extract_ok_value exBS exMD 2024).cash_and_cash_equivalents_mm = none ∧
    build_capital_structure exBS exMD [exBond] [] 2592 = Except.ok c2doc ∧
    c2doc.cash_mm = 0 ∧
    (run_self_assessment (vdocOfBuilt c2doc)).checks.find?
        (fun c => c.id == "arith_net_debt") =
      some ⟨"arith_net_debt", "pass",
        "Net Debt matches Total Debt - Cash (Δ=" ++ ratStr 0 ++ ").",
        some 0⟩ ∧
    ("Net Debt matches Total Debt - Cash (Δ=" ++ ratStr 0 ++ ")." ≠
      "Net Debt check skipped (missing Total Debt/Cash/Net Debt).") := by
  have hok : build_capital_structure exBS exMD [exBond] [] 2592 =
      Except.ok c2doc := rfl
  have h := missing_cash_builds_zero exBS exMD [exBond] [] 2592 c2doc hok rfl
  exact ⟨rfl, rfl, hok, h.1, h.2, netMatch_ne_skipped _⟩

/-- C2 (amended): when the balance sheet contains no matching cash row, the
extracted cash value is null (the extractor never defaults it to zero), and a
missing noncontrolling-interests row defaults to `0.0`; however the builder
defaults the missing cash to `0.0` in the built document (`round3(...) or
0.0`), so the SelfAssessmentValidator's net-debt check on that document
computes net debt with zero cash and reports a computed `pass` — never the
`'skipped'` warn, which is reachable only for documents lacking the cash
keys altogether. -/
theorem C2_missing_cash_amended :
    (∀ (bs : BalanceSheet) (md : Metadata) (y : Int),
      find_row bs cash_concepts cash_keywords = none →
      (extract_ok_value bs md y).cash_and_cash_equivalents_mm = none) ∧
    (∀ (bs : BalanceSheet) (md : Metadata) (y : Int),
      find_row_by_concept_or_label bs nci_concepts nci_keywords = none →
      (extract_ok_value bs md y).noncontrolling_interests_mm = 0) ∧
    (∀ (bs : BalanceSheet) (md : Metadata)
      (debt lease : List Instrument) (mc : ℚ) (doc : BuiltDoc),
      build_capital_structure bs md debt lease mc = Except.ok doc →
      find_row bs cash_concepts cash_keywords = none →
      doc.cash_mm = 0 ∧
      (run_self_assessment (vdocOfBuilt doc)).checks.find?
          (fun c => c.id == "arith_net_debt") =
        some ⟨"arith_net_debt", "pass",
          "Net Debt matches Total Debt - Cash (Δ=" ++ ratStr 0 ++ ").",
          some 0⟩ ∧
      ("Net Debt matches Total Debt - Cash (Δ=" ++ ratStr 0 ++ ")." ≠
        "Net Debt check skipped (missing Total Debt/Cash/Net Debt).")) := by
  refine ⟨?_, ?_, ?_⟩
  · intro bs md y hcash
    have h0 : (extract_ok_value bs md y).cash_and_cash_equivalents_mm =
        (match find_row bs cash_concepts cash_keywords with
         | some r => extract_row_value_mm r
             (select_period_key_for_annual_period bs y).1
         | none => none).map round3 := rfl
    rw [h0, hcash]
    rfl
  · intro bs md y hnci
    have h0 : (extract_ok_value bs md y).noncontrolling_interests_mm =
        (match (match find_row_by_concept_or_label bs nci_concepts nci_keywords with
                | some r => extract_row_value_mm r
                    (select_period_key_for_annual_period bs y).1
                | none => none) with
         | some v => round3 v
         | none => 0) := rfl
    rw [h0, hnci]
  · intro bs md debt lease mc doc hok hcash
    have h := missing_cash_builds_zero bs md debt lease mc doc hok hcash
    exact ⟨h.1, h.2, netMatch_ne_skipped _⟩

/-- Concrete run of the amended C2 on the shared inputs. -/
theorem C2_missing_cash_amended_witness :
    (extract_ok_value exBS exMD 2024).cash_and_cash_equivalents_mm = none ∧
    (extract_ok_value exBS exMD 2024).noncontrolling_interests_mm = 0 ∧
    c2doc.cash_mm = 0 ∧
    (run_self_assessment (vdocOfBuilt c2doc)).checks.find?
        (fun c => c.id == "arith_net_debt") =
      some ⟨"arith_net_debt", "pass",
        "Net Debt matches Total Debt - Cash (Δ=" ++ ratStr 0 ++ ").",
        some 0⟩ := by
  have h := C2_missing_cash_amended
  have h3 := h.2.2 exBS exMD [exBond] [] 2592 c2doc rfl rfl
  exact ⟨h.1 exBS exMD 2024 rfl, h.2.1 exBS exMD 2024 rfl, h3.1, h3.2.1⟩

/-! ## Claims C3 and C10: the validator on assembled documents -/

theorem netDebtCheck_id (a b c : Option ℚ) :
    (netDebtCheck a b c).id = "arith_net_debt" := by
  unfold netDebtCheck
  cases a <;> cases b <;> cases c <;> try rfl
  dsimp only
  split
  · rfl
  · split <;> rfl

theorem evCheck_id (a b c d : Option ℚ) :
    (evCheck a b c d).id = "arith_enterprise_value" := by
  unfold evCheck
  cases a <;> cases b <;> cases c <;> cases d <;> try rfl
  dsimp only
  split
  · rfl
  · split <;> rfl

theorem completenessCheck_id (n : Nat) :
    (completenessCheck n).id = "completeness" := by
  unfold completenessCheck
  split <;> rfl

theorem negAmountsCheck_id (n : Nat) :
    (negAmountsCheck n).id = "sanity_negative_amounts" := by
  unfold negAmountsCheck
  split <;> rfl

theorem totalDebtCheck_status_fail {td s : ℚ} (h : 1 / 2 < |td - s|) :
    (totalDebtCheck (some td) s).status = "fail" := by
  unfold totalDebtCheck
  dsimp only
  rw [if_neg (by push_neg; nlinarith [abs_nonneg (td - s)]),
    if_neg (by push_neg; exact h)]

/-- All instruments of the built document, flattened across issuer and
priority groups. -/
def doc_group_instruments (d : BuiltDoc) : List Instrument :=
  (d.issuer_groups.map (fun g =>
    (g.priority_groups.map (fun p => p.instruments)).flatten)).flatten

/-- The C3 instrument: a 100 $mm unsecured note. -/
def c3bond : Instrument := { exBond with amount_outstanding_mm := some 100 }

/-- The assembled document for C3. -/
def c3base : BuiltDoc :=
  (build_capital_structure exBS exMD [c3bond] [] 500).toOption.getD emptyDoc

/-- C3's failing input: the assembled document with an injected total-debt
mismatch of 0.03. -/
def c3doc : BuiltDoc := { c3base with total_debt_mm := c3base.total_debt_mm + 3 / 100 }

/-- C3 evaluation at the failing input: the assembled document's instruments
sum to 100 and the stated total is 100.03 — an injected mismatch of 0.03
which the claim says must pass — yet `run_self_assessment` recomputes the sum
from the absent top-level `instruments` key, obtaining 0, and the total-debt
check comes out `fail`. -/
theorem C3_total_debt_check_on_built_doc :
    c3base.total_debt_mm = 100 ∧
    amountSum (doc_group_instruments c3doc) = 100 ∧
    c3doc.total_debt_mm = 100 + 3 / 100 ∧
    sum_instrument_outstanding (vdocOfBuilt c3doc) = 0 ∧
    ((run_self_assessment (vdocOfBuilt c3doc)).checks.find?
        (fun c => c.id == "arith_total_debt")).map (fun c => c.status) =
      some "fail" := by
  have h100 : round3 (100 : ℚ) = 100 := round3_eq_of_isM3 ⟨100000, by norm_num⟩
  have h2 : (0 : ℚ) + 100 = 100 := by norm_num
  have hbase : c3base.total_debt_mm = 100 := by
    have h0 : c3base.total_debt_mm = round3 (round3 (0 + round3 100)) := rfl
    rw [h0, h100, h2, h100, h100]
  have hsum : amountSum (doc_group_instruments c3doc) = 100 := by
    have h0 : amountSum (doc_group_instruments c3doc) = 0 + round3 100 := rfl
    rw [h0, h100, h2]
  have htot : c3doc.total_debt_mm = 100 + 3 / 100 := by
    have h0 : c3doc.total_debt_mm = c3base.total_debt_mm + 3 / 100 := rfl
    rw [h0, hbase]
  refine ⟨hbase, hsum, htot, rfl, ?_⟩
  have hchecks : (run_self_assessment (vdocOfBuilt c3doc)).checks =
      [totalDebtCheck (some c3doc.total_debt_mm)
        (sum_instrument_outstanding (vdocOfBuilt c3doc)),
       netDebtCheck (some c3doc.total_debt_mm) (some c3doc.cash_mm)
        (some c3doc.net_debt_mm),
       evCheck (some c3doc.enterprise_value_mm) (some c3doc.net_debt_mm)
        (some c3doc.noncontrolling_interests_mm) (some c3doc.market_cap_mm),
       completenessCheck 0, negAmountsCheck 0] := rfl
  rw [hchecks, List.find?_cons_of_pos _ (by simp [totalDebtCheck_id])]
  have hs : sum_instrument_outstanding (vdocOfBuilt c3doc) = 0 := rfl
  rw [hs, htot]
  rw [Option.map_some']
  rw [totalDebtCheck_status_fail (by rw [abs_of_nonneg (by norm_num)]; norm_num)]

/-- The C10 instrument: an unsecured note maturing in 3000, far outside
[1990, 2100]. -/
def c10bond : Instrument :=
  { exBond with
    instrument_name := "Notes due January 1, 3000"
    maturity_year := some (MYear.yr 3000) }

/-- The assembled document for C10. -/
def c10doc : BuiltDoc :=
  (build_capital_structure exBS exMD [c10bond] [] 500).toOption.getD emptyDoc

/-- C10 evaluation at the failing input: the assembled document contains an
instrument whose maturity year 3000 lies outside [1990, 2100], yet
`run_self_assessment` emits no `sanity_maturity` check at all — it scans
`built.get("instruments")`, a key absent from assembled documents, and reads
the key `"maturity"` where pipeline instruments carry `"maturity_year"` — so
its check list is exactly the five fixed checks. -/
theorem C10_sanity_maturity_on_built_doc :
    (doc_group_instruments c10doc).map (fun i => i.maturity_year) =
      [some (MYear.yr 3000)] ∧
    sanity_scan (vdocOfBuilt c10doc).instruments 0 0 = (0, 0, none) ∧
    (run_self_assessment (vdocOfBuilt c10doc)).checks.filter
        (fun c => c.id == "sanity_maturity") = [] ∧
    (run_self_assessment (vdocOfBuilt c10doc)).checks.length = 5 := by
  have hchecks : (run_self_assessment (vdocOfBuilt c10doc)).checks =
      [totalDebtCheck (some c10doc.total_debt_mm)
        (sum_instrument_outstanding (vdocOfBuilt c10doc)),
       netDebtCheck (some c10doc.total_debt_mm) (some c10doc.cash_mm)
        (some c10doc.net_debt_mm),
       evCheck (some c10doc.enterprise_value_mm) (some c10doc.net_debt_mm)
        (some c10doc.noncontrolling_interests_mm) (some c10doc.market_cap_mm),
       completenessCheck 0, negAmountsCheck 0] := rfl
  refine ⟨rfl, rfl, ?_, ?_⟩
  · rw [hchecks]
    rw [List.filter_cons_of_neg (by simp [totalDebtCheck_id]),
      List.filter_cons_of_neg (by simp [netDebtCheck_id]),
      List.filter_cons_of_neg (by simp [evCheck_id]),
      List.filter_cons_of_neg (by simp [completenessCheck_id]),
      List.filter_cons_of_neg (by simp [negAmountsCheck_id]),
      List.filter_nil]
  · rw [hchecks]
    rfl

/-! ## A small regular-expression engine

The debt-note parser uses `re` patterns (IGNORECASE, DOTALL). They are
embedded as abstract syntax trees and executed by a fuel-bounded backtracking
matcher with Python `re` semantics: orderedic alternation, greedy `?`/`*`/`+`,
lazy `*?`/`{0,n}?`, capture groups, word boundaries, leftmost match for
`search`, non-overlapping continuation for `finditer`. The fuel bounds only
the recursion depth (pattern size plus consumed characters), so a generous
fuel is exact. -/

/-- Regex abstract syntax (the constructs the source patterns use). -/
inductive RE where
  | eps : RE
  | cls : (Char → Bool) → RE
  | seq : RE → RE → RE
  | alt : RE → RE → RE
  | optG : RE → RE
  | starG : RE → RE
  | starL : RE → RE
  | repL : RE → Nat → RE
  | grp : Nat → RE → RE
  | wb : RE

/-- Captured groups: group index to captured characters. -/
abbrev Caps := List (Nat × List Char)

/-- The CPS backtracking matcher. `prev` is the character before the current
position (for `\b`); the continuation receives the new position state. -/
def mrun (fuel : Nat) (re : RE) (prev : Option Char) (s : List Char)
    (caps : Caps) (k : Option Char → List Char → Caps → Option (Caps × Nat)) :
    Option (Caps × Nat) :=
  match fuel with
  | 0 => none
  | fuel + 1 =>
    match re with
    | RE.eps => k prev s caps
    | RE.cls p =>
      match s with
      | [] => none
      | c :: t => if p c then k (some c) t caps else none
    | RE.seq a b =>
      mrun fuel a prev s caps (fun p' s' c' => mrun fuel b p' s' c' k)
    | RE.alt a b => (mrun fuel a prev s caps k) <|> (mrun fuel b prev s caps k)
    | RE.optG a => (mrun fuel a prev s caps k) <|> k prev s caps
    | RE.starG a =>
      (mrun fuel a prev s caps
        (fun p' s' c' => mrun fuel (RE.starG a) p' s' c' k)) <|> k prev s caps
    | RE.starL a =>
      k prev s caps <|>
        (mrun fuel a prev s caps
          (fun p' s' c' => mrun fuel (RE.starL a) p' s' c' k))
    | RE.repL a maxRep =>
      k prev s caps <|>
        (match maxRep with
         | 0 => none
         | m + 1 =>
           mrun fuel a prev s caps
             (fun p' s' c' => mrun fuel (RE.repL a m) p' s' c' k))
    | RE.grp i a =>
      mrun fuel a prev s caps
        (fun p' s' c' => k p' s' ((i, s.take (s.length - s'.length)) :: c'))
    | RE.wb =>
      let wp := match prev with
        | some c => isWordC c
        | none => false
      let wn := match s with
        | c :: _ => isWordC c
        | [] => false
      if wp ≠ wn then k prev s caps else none

/-- Fuel sufficient for any of the embedded patterns on input `s`. -/
def fuelFor (s : List Char) : Nat := 6 * s.length + 2000

/-- Match the pattern at the current position; returns captures and the
number of characters consumed. -/
def matchHere (re : RE) (prev : Option Char) (s : List Char) :
    Option (Caps × Nat) :=
  mrun (fuelFor s) re prev s []
    (fun _ s' caps => some (caps, s.length - s'.length))

/-- `re.search` scanning: leftmost match, returning (start, captures,
length). -/
def searchAux (re : RE) (prev : Option Char) (s : List Char) (pos : Nat) :
    Option (Nat × Caps × Nat) :=
  match matchHere re prev s with
  | some (caps, len) => some (pos, caps, len)
  | none =>
    match s with
    | [] => none
    | c :: t => searchAux re (some c) t (pos + 1)

/-- `re.search` from the start of the text. -/
def reSearch (re : RE) (s : List Char) : Option (Nat × Caps × Nat) :=
  searchAux re none s 0

/-- Does the pattern occur anywhere (`re.search(...) is not None`)? -/
def reTest (re : RE) (s : List Char) : Bool := (reSearch re s).isSome

/-- Advance `n` characters, tracking the previous character. -/
def advanceBy (prev : Option Char) (s : List Char) : Nat → Option Char × List Char
  | 0 => (prev, s)
  | n + 1 =>
    match s with
    | [] => (prev, [])
    | c :: t => advanceBy (some c) t n

/-- `re.finditer`: non-overlapping matches in order; after a match the scan
resumes at its end (one character further for empty matches). -/
def finditerAux (fuel : Nat) (re : RE) (prev : Option Char) (s : List Char)
    (acc : List Caps) : List Caps :=
  match fuel with
  | 0 => acc.reverse
  | fuel + 1 =>
    match searchAux re prev s 0 with
    | none => acc.reverse
    | some (i, caps, len) =>
      let step := i + max len 1
      let (prev', s') := advanceBy prev s step
      finditerAux fuel re prev' s' (caps :: acc)

/-- All matches' captures. -/
def reFinditer (re : RE) (s : List Char) : List Caps :=
  finditerAux (s.length + 1) re none s []

/-- Number of matches (`len(re.findall(...))`). -/
def reCount (re : RE) (s : List Char) : Nat := (reFinditer re s).length

/-- `re.fullmatch`. -/
def reFullmatch (re : RE) (s : List Char) : Option Caps :=
  mrun (fuelFor s) re none s []
    (fun _ s' caps => if s'.isEmpty then some (caps, 0) else none)
    |>.map (fun r => r.1)

/-- Look up a capture group (its first binding, each group binding at most
once per match in the embedded patterns). -/
def capGet (caps : Caps) (i : Nat) : Option (List Char) :=
  (caps.find? (fun kv => kv.1 == i)).map (fun kv => kv.2)

/-! ## The concrete patterns of `debt_note_html_parser.py` -/

/-- Sequence a list of regexes. -/
def seqAll : List RE → RE
  | [] => RE.eps
  | [r] => r
  | r :: rs => RE.seq r (seqAll rs)

/-- A single case-insensitive literal character. -/
def chrCI (c : Char) : RE := RE.cls (fun x => lowerChar x = lowerChar c)

/-- A single case-sensitive literal character. -/
def chrCS (c : Char) : RE := RE.cls (fun x => x = c)

/-- Case-insensitive literal string. -/
def litCI (s : String) : RE := seqAll (s.data.map chrCI)

/-- Case-sensitive literal string. -/
def litCS (s : String) : RE := seqAll (s.data.map chrCS)

/-- `\s+`. -/
def wsPlus : RE := RE.seq (RE.cls isSpaceC) (RE.starG (RE.cls isSpaceC))

/-- `\s*`. -/
def wsStar : RE := RE.starG (RE.cls isSpaceC)

/-- `[A-Za-z]+`. -/
def alphaPlus : RE := RE.seq (RE.cls isAlphaC) (RE.starG (RE.cls isAlphaC))

/-- One decimal digit. -/
def digitRE : RE := RE.cls isDigitC

/-- Letters or digits. -/
def isAlnumC (c : Char) : Bool := isAlphaC c || isDigitC c

/-- `([A-Za-z]+\s+\d{1,2},\s*\d{4})` as capture group `i` (a US long date). -/
def dateGrp (i : Nat) : RE :=
  RE.grp i (seqAll [alphaPlus, wsPlus, digitRE, RE.optG digitRE, chrCS ',',
    wsStar, digitRE, digitRE, digitRE, digitRE])

/-- `\bdue\s+([A-Za-z]+\s+\d{1,2},\s*\d{4})\b`. -/
def duePat : RE := seqAll [RE.wb, litCI "due", wsPlus, dateGrp 1, RE.wb]

/-- Any character (DOTALL `.`), lazily repeated (`.*?`). -/
def dotStarL : RE := RE.starL (RE.cls (fun _ => true))

/-- The opening-quote class `[“"']`. -/
def isOpenQuote (c : Char) : Bool :=
  c = Char.ofNat 8220 || c = '"' || c = Char.ofNat 39

/-- The closing-quote class `[”"']` (also the class excluded inside the
agreement-name capture). -/
def isCloseQuote (c : Char) : Bool :=
  c = Char.ofNat 8221 || c = '"' || c = Char.ofNat 39

/-- The credit-agreement opening narrative pattern of
`_extract_credit_facilities_from_narrative` (group 1: start date, group 2:
secured|unsecured, group 3: agreement name). -/
def startPat : RE :=
  seqAll [RE.wb, litCI "on", wsPlus, dateGrp 1, chrCS ',', wsPlus,
    dotStarL, RE.wb,
    RE.optG (RE.seq (RE.grp 2 (RE.alt (litCI "secured") (litCI "unsecured")))
      wsPlus),
    litCI "revolving", wsPlus, litCI "credit", wsPlus, litCI "facility",
    RE.wb, dotStarL,
    chrCS '(', wsStar, litCI "the", wsPlus, RE.cls isOpenQuote,
    RE.grp 3 (RE.seq (RE.starL (RE.cls (fun c => ¬ isCloseQuote c)))
      (litCI "credit agreement")),
    RE.cls isCloseQuote, wsStar, chrCS ')']

/-- The maturity-date narrative pattern (group 1: agreement name, group 2:
new maturity date). -/
def maturityPat : RE :=
  seqAll [RE.wb, litCI "maturity", wsPlus, litCI "date", RE.wb,
    dotStarL, RE.optG (RE.seq (litCI "the") wsPlus),
    RE.grp 1 (seqAll [RE.cls isAlnumC,
      RE.repL (RE.cls (fun c => isAlnumC c || isSpaceC c || c = '-')) 60,
      litCI "credit agreement"]),
    RE.wb, dotStarL, RE.wb, litCI "to", wsPlus, dateGrp 2]

/-- The issue-date narrative pattern of
`_build_issue_date_map_from_narrative` (group 1: due date, group 2: issue
date). -/
def issuePat : RE :=
  seqAll [litCI "senior", wsPlus, litCI "unsecured", wsPlus, litCI "notes",
    wsPlus, litCI "due", wsPlus, dateGrp 1,
    RE.repL (RE.cls (fun _ => true)) 250,
    litCI "were", wsPlus, litCI "issued", wsPlus, dateGrp 2]

/-- Characters allowed in the parent-issuer capture `[A-Za-z0-9&\-\., ]`. -/
def isIssuerC (c : Char) : Bool :=
  isAlnumC c || c = '&' || c = '-' || c = '.' || c = ',' || c = ' '

/-- Uppercase ASCII letter. -/
def isUpperC (c : Char) : Bool := 'A' ≤ c && c ≤ 'Z'

/-- `\bissued by\s+([A-Z][A-Za-z0-9&\-\., ]+)\b` (case-sensitive). -/
def parentIssuerPat : RE :=
  seqAll [RE.wb, litCS "issued by", wsPlus,
    RE.grp 1 (RE.seq (RE.cls isUpperC)
      (RE.seq (RE.cls isIssuerC) (RE.starG (RE.cls isIssuerC)))),
    RE.wb]

/-- `-?\d+(?:\.\d+)?` (the last-resort numeric scan). -/
def numPat : RE :=
  seqAll [RE.optG (chrCS '-'), digitRE, RE.starG digitRE,
    RE.optG (seqAll [chrCS '.', digitRE, RE.starG digitRE])]

/-- `(\d{1,2})/(\d{1,2})/(\d{4})` for `_parse_us_date`. -/
def mmddPat : RE :=
  seqAll [RE.grp 1 (RE.seq digitRE (RE.optG digitRE)), chrCS '/',
    RE.grp 2 (RE.seq digitRE (RE.optG digitRE)), chrCS '/',
    RE.grp 3 (seqAll [digitRE, digitRE, digitRE, digitRE])]

/-- `([A-Za-z]+)\s+(\d{1,2}),\s*(\d{4})` for `_parse_us_date`. -/
def monthDatePat : RE :=
  seqAll [RE.grp 1 alphaPlus, wsPlus, RE.grp 2 (RE.seq digitRE (RE.optG digitRE)),
    chrCS ',', wsStar, RE.grp 3 (seqAll [digitRE, digitRE, digitRE, digitRE])]

/-! ## Date handling of `debt_note_html_parser.py` -/

/-- `_clean_space`: replace non-breaking spaces, collapse whitespace runs to
a single space, strip. -/
def clean_space (s : List Char) : List Char :=
  pyStrip (collapseWs (s.map (fun c => if c = Char.ofNat 160 then ' ' else c)))

/-- The `MONTHS` name-to-number map (lower-cased lookup). -/
def monthNum (s : List Char) : Option Int :=
  if s = "january".data then some 1
  else if s = "february".data then some 2
  else if s = "march".data then some 3
  else if s = "april".data then some 4
  else if s = "may".data then some 5
  else if s = "june".data then some 6
  else if s = "july".data then some 7
  else if s = "august".data then some 8
  else if s = "september".data then some 9
  else if s = "october".data then some 10
  else if s = "november".data then some 11
  else if s = "december".data then some 12
  else none

/-- `_parse_us_date`: `"March 9, 2026"` or `"03/09/2026"`, validated as a
calendar date. -/
def parse_us_date (text : List Char) : Option (Int × Int × Int) :=
  let t := clean_space text
  if t.isEmpty then none
  else
    match reFullmatch mmddPat t with
    | some caps =>
      match capGet caps 1, capGet caps 2, capGet caps 3 with
      | some ms, some ds, some ys =>
        match pyIntParse ms, pyIntParse ds, pyIntParse ys with
        | some m, some d, some y => mkValidDate y m d
        | _, _, _ => none
      | _, _, _ => none
    | none =>
      match reFullmatch monthDatePat t with
      | some caps =>
        match capGet caps 1, capGet caps 2, capGet caps 3 with
        | some mon, some ds, some ys =>
          match monthNum (lowerL mon), pyIntParse ds, pyIntParse ys with
          | some m, some d, some y => mkValidDate y m d
          | _, _, _ => none
        | _, _, _ => none
      | none => none

/-- Zero-padded decimal rendering. -/
def padNat (w n : Nat) : String :=
  let s := natToStr n
  if s.length < w then String.mk (List.replicate (w - s.length) '0' ++ s.data)
  else s

/-- `date.isoformat()`. -/
def isoOfDate (d : Int × Int × Int) : String :=
  padNat 4 d.1.toNat ++ "-" ++ padNat 2 d.2.1.toNat ++ "-" ++ padNat 2 d.2.2.toNat

/-! ## Debt-note parsing -/

/-- `_to_mm_if_thousands`. -/
def to_mm_if_thousands : Option ℚ → Option ℚ
  | none => none
  | some v => some (if 10000 ≤ |v| then v / 1000 else v)

/-- `_extract_due_date_text_from_name`. -/
def extract_due_date_text_from_name (name : List Char) : Option (List Char) :=
  (reSearch duePat name).bind (fun r => (capGet r.2.1 1).map clean_space)

/-- `_extract_maturity_year_from_name`. -/
def extract_maturity_year_from_name (name : List Char) : Option Int :=
  (extract_due_date_text_from_name name).bind
    (fun due => (parse_us_date due).map (fun d => d.1))

/-- `_safe_float_from_text`: clean, dash set to `None`, parenthesised
negatives, `$`/comma removal, `float(...)`, last-resort numeric substring. -/
def safe_float_from_text (t : List Char) : Option ℚ :=
  let s := clean_space t
  if s.isEmpty ∨ s = "—".data ∨ s = "-".data ∨ s = "–".data ∨
      s = "—-".data ∨ s = "— —".data then none
  else
    let neg := s.head? = some '(' ∧ s.getLast? = some ')'
    let s1 := if neg then (s.drop 1).dropLast else s
    let s2 := removeAll ',' (removeAll '$' s1)
    if s2 = "—".data ∨ s2 = "-".data ∨ s2 = "–".data then none
    else
      match pyFloat (pyStrip s2) with
      | some v => some (if neg then -v else v)
      | none =>
        match reSearch numPat s2 with
        | some (i, _, len) =>
          (pyFloat ((s2.drop i).take len)).map (fun v => if neg then -v else v)
        | none => none

/-- `_classify_instrument_type`. -/
def classify_instrument_type (name : List Char) : String :=
  let t := lowerL name
  if containsL t "revolver".data || containsL t "revolving".data ||
      containsL t "credit facility".data || containsL t "rcf".data ||
      containsL t "line of credit".data || containsL t "credit agreement".data
  then "credit_facility"
  else if containsL t "term loan".data then "term_loan"
  else if containsL t "note".data || containsL t "notes".data ||
      containsL t "debenture".data || containsL t "senior notes".data
  then "bond"
  else "other_debt"

/-- `_extract_parent_issuer`. -/
def extract_parent_issuer (text : List Char) : Option String :=
  (reSearch parentIssuerPat text).bind
    (fun r => (capGet r.2.1 1).map (fun c => String.mk (clean_space c)))

/-- `_build_issue_date_map_from_narrative`: due-date text to issue-date ISO
string, in match order (a Python dict: a later entry for the same key wins,
see `issueMapGet`). -/
def build_issue_date_map (t : List Char) : List (List Char × String) :=
  (reFinditer issuePat t).filterMap (fun caps =>
    match capGet caps 1, capGet caps 2 with
    | some dueRaw, some issRaw =>
      let due_txt := clean_space dueRaw
      let iss_txt := clean_space issRaw
      match parse_us_date due_txt, parse_us_date iss_txt with
      | some _, some issD => some (due_txt, isoOfDate issD)
      | _, _ => none
    | _, _ => none)

/-- Dict lookup with last-binding-wins (Python dict insert semantics). -/
def issueMapGet (m : List (List Char × String)) (k : List Char) : Option String :=
  (m.reverse.find? (fun kv => kv.1 == k)).map (fun kv => kv.2)

/-- Strip one leading case-insensitive `tok` followed by whitespace. -/
def stripTokCI (tok : String) (s : List Char) : Option (List Char) :=
  if lowerL (s.take tok.data.length) = lowerL tok.data then
    let rest := s.drop tok.data.length
    match rest with
    | c :: _ => if isSpaceC c then some (rest.dropWhile (isSpaceC ·)) else none
    | [] => none
  else none

/-- `re.sub(r"^(?:of\s+)?(?:the\s+)?", "", agreement, flags=IGNORECASE)`. -/
def stripOfThe (s : List Char) : List Char :=
  let s1 := (stripTokCI "of" s).getD s
  (stripTokCI "the" s1).getD s1

/-- Later maturity date (Python `max` over `datetime.date`, first maximum on
ties). -/
def maxDate (d : Int × Int × Int) (ds : List (Int × Int × Int)) : Int × Int × Int :=
  ds.foldl (fun acc x => if dateLtB acc x then x else acc) d

/-- `_extract_credit_facilities_from_narrative`. -/
def extract_credit_facilities_from_narrative (t : List Char) : List Instrument :=
  let maturities : List (List Char × (Int × Int × Int)) :=
    (reFinditer maturityPat t).filterMap (fun caps =>
      match capGet caps 1, capGet caps 2 with
      | some agrRaw, some dRaw =>
        let agreement := stripOfThe (clean_space agrRaw)
        match parse_us_date (clean_space dRaw) with
        | some d => if agreement.isEmpty then none else some (agreement, d)
        | none => none
      | _, _ => none)
  (reFinditer startPat t).filterMap (fun caps =>
    match capGet caps 1, capGet caps 3 with
    | some issRaw, some agrRaw =>
      let issue_txt := clean_space issRaw
      let sec_unsec := match capGet caps 2 with
        | some g => if (clean_space g).isEmpty then "unsecured".data
            else clean_space g
        | none => "unsecured".data
      let agreement := stripOfThe (clean_space agrRaw)
      match parse_us_date issue_txt with
      | none => none
      | some issD =>
        if agreement.isEmpty then none
        else
          let mats := (maturities.filter (fun kv => kv.1 == agreement)).map
            (fun kv => kv.2)
          let maturity_year : Option Int := match mats with
            | [] => none
            | d :: ds => some ((maxDate d ds).1)
          some { instrument_name := String.mk (capWord sec_unsec ++
                   " Revolving Credit Facility (".data ++ agreement ++ ")".data)
                 amount_outstanding_mm := some 0
                 amount_available_mm := none
                 coupon_percent := some Coupon.var
                 maturity_year := maturity_year.map MYear.yr
                 priority := some (String.mk (capWord sec_unsec))
                 parent_issuer := none
                 issue_date := some (isoOfDate issD)
                 instrument_type := "credit_facility"
                 lien_level := none }
    | _, _ => none)

/-- The flattened text of a table (`tab.get_text(" ", strip=True)`): the
stripped non-empty cell texts joined by single spaces. -/
def table_text (tab : List (List String)) : List Char :=
  joinWith " ".data
    ((tab.flatten.map (fun c => pyStrip c.data)).filter (fun c => ¬ c.isEmpty))

/-- The score of a table: its count of `due <Month> <d>, <yyyy>` phrases. -/
def score_table (tab : List (List String)) : Nat := reCount duePat (table_text tab)

/-- First highest-scoring table (Python's stable descending sort followed by
`scored[0]`). -/
def pickBestTable (tables : List (List (List String))) :
    Option (List (List String) × Nat) :=
  tables.foldl (fun acc t =>
    match acc with
    | none => some (t, score_table t)
    | some (bt, bs) => if bs < score_table t then some (t, score_table t)
        else some (bt, bs)) none

/-- The amount/coupon forward scan over the cells after the name cell. The
first parseable numeric becomes the amount; afterwards the literal
`variable` or a numeric strictly between 0 and 100 becomes the coupon and
stops the scan; a cell that fails the amount parse is tried as coupon in the
same iteration. -/
def scan_cells : List (List Char) → Option ℚ → Option ℚ × Option Coupon
  | [], amt => (amt, none)
  | cell :: rest, amt =>
    match amt with
    | none =>
      match safe_float_from_text cell with
      | some v => scan_cells rest (some v)
      | none =>
        let t := clean_space cell
        if t.isEmpty then scan_cells rest none
        else if lowerL t = "variable".data then (none, some Coupon.var)
        else
          match safe_float_from_text t with
          | some f =>
            if 0 < f ∧ f < 100 then (none, some (Coupon.pct f))
            else scan_cells rest none
          | none => scan_cells rest none
    | some a =>
      let t := clean_space cell
      if t.isEmpty then scan_cells rest (some a)
      else if lowerL t = "variable".data then (some a, some Coupon.var)
      else
        match safe_float_from_text t with
        | some f =>
          if 0 < f ∧ f < 100 then (some a, some (Coupon.pct f))
          else scan_cells rest (some a)
        | none => scan_cells rest (some a)

/-- The instrument record built from the name cell at index `j` and the
amount/coupon scan over the following cells. -/
def row_named_instrument (cell_texts : List (List Char)) (j : Nat) :
    Option Instrument :=
  if ((cell_texts.get? j).getD []).isEmpty then none
  else
    some { instrument_name := String.mk ((cell_texts.get? j).getD [])
           amount_outstanding_mm :=
             to_mm_if_thousands (scan_cells (cell_texts.drop (j + 1)) none).1
           amount_available_mm := none
           coupon_percent := (scan_cells (cell_texts.drop (j + 1)) none).2
           maturity_year :=
             (extract_maturity_year_from_name ((cell_texts.get? j).getD [])).map
               MYear.yr
           priority :=
             if containsL (lowerL ((cell_texts.get? j).getD []))
               "unsecured".data then some "Unsecured" else none
           parent_issuer := none
           issue_date := none
           instrument_type :=
             classify_instrument_type ((cell_texts.get? j).getD [])
           lien_level := none }

/-- One data row of the primary debt table: the first cell containing the
due-date phrase names the instrument; later cells supply amount and coupon. -/
def row_to_instrument (row : List String) : Option Instrument :=
  match (row.map (fun c => clean_space c.data)).findIdx?
      (fun ct => reTest duePat ct) with
  | none => none
  | some j => row_named_instrument (row.map (fun c => clean_space c.data)) j

/-- `_extract_instruments_from_primary_table`: no tables or a zero best
score yields no instruments (not an error). -/
def extract_instruments_from_primary_table
    (tables : List (List (List String))) : List Instrument :=
  match pickBestTable tables with
  | none => []
  | some (best, bestScore) =>
    if bestScore = 0 then []
    else best.filterMap row_to_instrument

/-- The narrative-facility merge of `parse_debt_note_html`: a facility is
appended only when no already-extracted instrument shares its lower-cased
name (the name set is fixed before appending starts). -/
def merge_narrative (tableInstr narrative : List Instrument) : List Instrument :=
  tableInstr ++ narrative.filter (fun cf =>
    ¬ (tableInstr.map (fun i => lowerL i.instrument_name.data)).contains
      (lowerL cf.instrument_name.data))

/-- Lexicographic code-point comparison (Python `str <`). -/
def strLtB : List Char → List Char → Bool
  | [], [] => false
  | [], _ :: _ => true
  | _ :: _, [] => false
  | a :: as, b :: bs => a < b || (a = b && strLtB as bs)

/-- The final sort key: `(maturity_year or 9999, instrument_name)`. -/
def debtSortLt (a b : Instrument) : Bool :=
  let ya : Int := match a.maturity_year with
    | some (MYear.yr y) => y
    | _ => 9999
  let yb : Int := match b.maturity_year with
    | some (MYear.yr y) => y
    | _ => 9999
  ya < yb || (ya = yb && strLtB a.instrument_name.data b.instrument_name.data)

/-- The debt parser's output record (the `notes` log strings, provenance
only, are not modelled). -/
structure DebtParsed where
  parent_company_name : Option String
  period_end_date_text : Option String
  instruments : List Instrument

/-- `parse_debt_note_html`, as a function of the note's tables (cell-text
matrices, as BeautifulSoup delivers them) and flattened full text: table
extraction, issue-date back-fill, narrative credit facilities (deduplicated
by lower-cased name), best-effort type/parent fill, final sort. -/
def parse_debt_note_html (tables : List (List (List String)))
    (full_text : String)
    (period_end_date_text parent_company_name : Option String) : DebtParsed :=
  let instruments0 := extract_instruments_from_primary_table tables
  let due_to_issue := build_issue_date_map full_text.data
  let instruments1 := instruments0.map (fun ins =>
    match extract_due_date_text_from_name ins.instrument_name.data with
    | some due_txt =>
      match issueMapGet due_to_issue due_txt with
      | some isoStr => { ins with issue_date := some isoStr }
      | none => ins
    | none => ins)
  let narrative := extract_credit_facilities_from_narrative full_text.data
  let instruments2 := merge_narrative instruments1 narrative
  let parent := extract_parent_issuer full_text.data
  let instruments3 := instruments2.map (fun ins =>
    let ins1 := if ins.instrument_type.isEmpty then
        { ins with instrument_type :=
            classify_instrument_type ins.instrument_name.data }
      else ins
    match parent with
    | some p =>
      if pyTruthyStr ins1.parent_issuer then ins1
      else { ins1 with parent_issuer := some p }
    | none => ins1)
  { parent_company_name := parent_company_name
    period_end_date_text := period_end_date_text
    instruments := stableSortBy debtSortLt instruments3 }

/-! ## Lease-note parsing (`lease_note_html_parser.py`) -/

/-- The lease parser's `_norm`. -/
def lease_norm (s : List Char) : List Char :=
  pyStrip (collapseWs ((lowerL s).map
    (fun c => if isWordC c || isSpaceC c then c else ' ')))

/-- The four canonical lease-liability targets `(key, pretty, type)`. -/
def LEASE_TARGETS : List (String × String × String) :=
  [("total operating lease liabilities", "Total operating lease liabilities",
    "operating_lease"),
   ("non current operating lease liabilities",
    "Non-current operating lease liabilities", "operating_lease"),
   ("total finance lease liabilities", "Total finance lease liabilities",
    "finance_lease"),
   ("non current finance lease liabilities",
    "Non-current finance lease liabilities", "finance_lease")]

/-- `_match_target`: the normalized first cell, or first two cells joined,
must equal a target key exactly. -/
def match_target (row : List String) : Option (String × String × String) :=
  match row with
  | [] => none
  | c0 :: rest =>
    let n0 := lease_norm c0.data
    let n1 := match rest with
      | c1 :: _ => lease_norm c1.data
      | [] => []
    let cand2 := pyStrip (n0 ++ " ".data ++ n1)
    LEASE_TARGETS.find? (fun t =>
      n0 = t.1.data ∨ cand2 = t.1.data)

/-- `_parse_number`: strict `\d+(\.\d+)?` after currency/comma/space
removal, with parenthesised negatives; the mojibake em-dash literal of the
source is kept. -/
def parse_number (cell : List Char) : Option ℚ :=
  let t := clean_space cell
  if t.isEmpty ∨ t = "-".data ∨ t = "â€”".data then none
  else
    let t1 := pyStrip (removeAll '$' t)
    let neg := t1.head? = some '(' ∧ t1.getLast? = some ')'
    let t2 := if neg then pyStrip ((t1.drop 1).dropLast) else t1
    let t3 := removeAll ' ' (removeAll ',' t2)
    let (ds, r) := takeDigits t3
    if ds.isEmpty then none
    else
      match r with
      | [] => some (if neg then -((digitsToNat ds : Int) : ℚ)
          else ((digitsToNat ds : Int) : ℚ))
      | '.' :: r2 =>
        let (fs, r3) := takeDigits r2
        if fs.isEmpty ∨ ¬ r3.isEmpty then none
        else
          let v := ratOfParts ((digitsToNat (ds ++ fs) : Int), fs.length, 0)
          some (if neg then -v else v)
      | _ => none

/-- `_to_mm_from_lease_table`: the thousands heuristic. -/
def to_mm_from_lease_table (raw : ℚ) : ℚ :=
  if 10000 ≤ |raw| then raw / 1000 else raw

/-- `_first_amount_after_dollar`: first numeric cell immediately after a
literal `$` cell. -/
def first_amount_after_dollar : List (List Char) → Option ℚ
  | a :: b :: rest =>
    if clean_space a = "$".data then
      match parse_number b with
      | some v => some v
      | none => first_amount_after_dollar (b :: rest)
    else first_amount_after_dollar (b :: rest)
  | _ => none

/-- Fallback: the last numeric cell of the row. -/
def last_numeric (row : List (List Char)) : Option ℚ :=
  row.foldl (fun acc cell =>
    match parse_number cell with
    | some v => some v
    | none => acc) none

/-- One matched lease row turned into an instrument. -/
def lease_row_instrument (row : List (List Char))
    (pretty : String) (lease_type : String) : Option Instrument :=
  let raw := match first_amount_after_dollar row with
    | some v => some v
    | none => last_numeric row
  match raw with
  | none => none
  | some v =>
    some { instrument_name := pretty
           amount_outstanding_mm := some (round3 (to_mm_from_lease_table v))
           amount_available_mm := none
           coupon_percent := none
           maturity_year := some MYear.various
           priority := some "Senior Secured"
           parent_issuer := none
           issue_date := none
           instrument_type := lease_type
           lien_level := none }

/-- The per-table extraction of `parse_lease_note_html`: at least 3
non-blank rows, `"lease liabilities"` in the joined lower-cased text, rows
matched against the four targets. -/
def lease_table_instruments (table : List (List String)) : List Instrument :=
  let matrix := table.filter (fun row =>
    row.any (fun c => ¬ (pyStrip c.data).isEmpty))
  if matrix.length < 3 then []
  else
    let joined := lowerL (joinWith " ".data
      (matrix.map (fun r => joinWith " ".data (r.map (fun c => c.data)))))
    if ¬ containsL joined "lease liabilities".data then []
    else
      matrix.filterMap (fun row =>
        match match_target row with
        | none => none
        | some t =>
          lease_row_instrument (row.map (fun c => c.data)) t.2.1 t.2.2)

/-- Keep-first deduplication on `(name, amount, type)`. -/
def dedup_lease (seen : List (String × Option ℚ × String)) :
    List Instrument → List Instrument
  | [] => []
  | i :: rest =>
    let key := (i.instrument_name, i.amount_outstanding_mm, i.instrument_type)
    if seen.contains key then dedup_lease seen rest
    else i :: dedup_lease (key :: seen) rest

/-- The lease parser's output record (log notes not modelled). -/
structure LeaseParsed where
  period_end_date_text : Option String
  instruments : List Instrument

/-- `parse_lease_note_html` over the note's table matrices. -/
def parse_lease_note_html (tables : List (List (List String)))
    (period_end_date_text : Option String) : LeaseParsed :=
  { period_end_date_text := period_end_date_text
    instruments := dedup_lease [] (tables.flatMap lease_table_instruments) }

/-! ## Claim C7: narrative-only credit facility -/

set_option maxRecDepth 100000

/-- The C7 scenario narrative: no tables, an entry passage naming the 2021
Credit Agreement, and two maturity passages (2025 then 2027). -/
def c7narrative : String :=
  "On November 9, 2021, the Company entered into a credit agreement providing for an unsecured revolving credit facility (the “2021 Credit Agreement”). The maturity date of the 2021 Credit Agreement was extended to November 9, 2025. The maturity date of the 2021 Credit Agreement was further extended to November 9, 2027."

/-- C7: a narrative-derived credit facility is added only when no
already-extracted instrument shares its case-insensitive name; and on a debt
note with no tables whose narrative contains the entry passage and two
maturity-extension passages, the parser yields exactly one instrument — a
`credit_facility` with `maturity_year = 2027` (the latest maturity found),
`coupon_percent = "variable"` and `amount_outstanding_mm = 0.0`. -/
theorem C7_narrative_credit_facility :
    (∀ (t n : List Instrument) (cf : Instrument), cf ∈ n →
      (∀ i ∈ t, lowerL i.instrument_name.data ≠ lowerL cf.instrument_name.data) →
      cf ∈ merge_narrative t n) ∧
    (∀ (t n : List Instrument) (cf : Instrument),
      (∃ i ∈ t, lowerL i.instrument_name.data = lowerL cf.instrument_name.data) →
      cf ∉ t → cf ∉ merge_narrative t n) ∧
    ((parse_debt_note_html [] c7narrative none none).instruments.map
        (fun i => i.instrument_name) =
      ["Unsecured Revolving Credit Facility (2021 Credit Agreement)"]) ∧
    ((parse_debt_note_html [] c7narrative none none).instruments.map
        (fun i => (i.instrument_type, i.maturity_year, i.coupon_percent,
          i.amount_outstanding_mm, i.issue_date)) =
      [("credit_facility", some (MYear.yr 2027), some Coupon.var, some 0,
        some "2021-11-09")]) := by
  refine ⟨?_, ?_, ?_, ?_⟩
  · intro t n cf hmem hno
    unfold merge_narrative
    apply List.mem_append_right
    rw [List.mem_filter]
    refine ⟨hmem, ?_⟩
    simp only [decide_eq_true_eq, List.contains_eq_any_beq, List.any_eq_true,
      List.mem_map, beq_iff_eq]
    push_neg
    rintro x ⟨i, hi, rfl⟩
    exact fun h => hno i hi h.symm
  · intro t n cf hclash hnt hmem
    unfold merge_narrative at hmem
    rcases List.mem_append.mp hmem with h | h
    · exact hnt h
    · rw [List.mem_filter] at h
      obtain ⟨i, hi, heq⟩ := hclash
      have h2 := h.2
      simp only [decide_eq_true_eq, List.contains_eq_any_beq, List.any_eq_true,
        List.mem_map, beq_iff_eq] at h2
      exact h2 ⟨lowerL i.instrument_name.data, ⟨i, hi, rfl⟩, heq.symm⟩
  · rfl
  · rfl

/-- Concrete C7 merge runs: a fresh-named facility is appended; one sharing a
table instrument's case-insensitive name is not. -/
theorem C7_narrative_credit_facility_witness :
    (extract_credit_facilities_from_narrative c7narrative.data).length = 1 ∧
    (∀ cf ∈ extract_credit_facilities_from_narrative c7narrative.data,
      cf ∈ merge_narrative [exBond]
        (extract_credit_facilities_from_narrative c7narrative.data)) ∧
    (∀ cf ∈ extract_credit_facilities_from_narrative c7narrative.data,
      cf ∉ merge_narrative
        [{ exBond with instrument_name :=
            "UNSECURED REVOLVING CREDIT FACILITY (2021 CREDIT AGREEMENT)" }]
        (extract_credit_facilities_from_narrative c7narrative.data)) := by
  refine ⟨rfl, ?_, ?_⟩
  · intro cf hcf
    apply C7_narrative_credit_facility.1 _ _ cf hcf
    intro i hi
    rw [List.mem_singleton] at hi
    subst hi
    have hname : cf.instrument_name =
        "Unsecured Revolving Credit Facility (2021 Credit Agreement)" := by
      have h1 := List.mem_map_of_mem (fun i => i.instrument_name) hcf
      rw [show (extract_credit_facilities_from_narrative c7narrative.data).map
        (fun i => i.instrument_name) =
        ["Unsecured Revolving Credit Facility (2021 Credit Agreement)"] from rfl]
        at h1
      simpa using h1
    rw [hname]
    decide
  · intro cf hcf
    apply C7_narrative_credit_facility.2.1
    · refine ⟨_, List.mem_singleton.mpr rfl, ?_⟩
      have hname : cf.instrument_name =
          "Unsecured Revolving Credit Facility (2021 Credit Agreement)" := by
        have h1 := List.mem_map_of_mem (fun i => i.instrument_name) hcf
        rw [show (extract_credit_facilities_from_narrative c7narrative.data).map
          (fun i => i.instrument_name) =
          ["Unsecured Revolving Credit Facility (2021 Credit Agreement)"] from rfl]
          at h1
        simpa using h1
      rw [hname]
      decide
    · intro hmem
      rw [List.mem_singleton] at hmem
      have h1 : cf.amount_outstanding_mm = some 300 := by
        rw [hmem]
        rfl
      have h2 : cf.amount_outstanding_mm = some 0 := by
        have h3 := List.mem_map_of_mem (fun i => i.amount_outstanding_mm) hcf
        rw [show (extract_credit_facilities_from_narrative c7narrative.data).map
          (fun i => i.amount_outstanding_mm) = [some 0] from rfl] at h3
        simpa using h3
      rw [h2] at h1
      have h5 : (0 : ℚ) = 300 := Option.some.injEq (0 : ℚ) 300 |>.mp h1
      norm_num at h5

/-! ## Claim C8: the thousands-scaling heuristic -/

/-- The C8 lease scenario table: a qualifying lease-liability table whose
matched row carries the cell `"2,358,693"` after a `$` marker. -/
def c8leaseTable : List (List String) :=
  [["Maturity of lease liabilities", "", ""],
   ["Total operating lease liabilities", "$", "2,358,693"],
   ["Other row", "x", "y"]]

/-- The C8 debt scenario table: one schedule row with amount cell
`"299,110"`. -/
def c8debtTable : List (List String) :=
  [["1.75% Senior Unsecured Notes due March 9, 2026", "$", "299,110"]]

/-- C8: in both extractors a parsed raw amount with magnitude at least
10,000 is treated as thousands and divided by 1,000, smaller magnitudes pass
through unchanged; every instrument emitted by the debt table phase carries
`to_mm_if_thousands` of its scanned raw amount; and the lease cell
`"2,358,693"` yields `amount_outstanding_mm = 2358.693` (the debt cell
`"299,110"` likewise yields 299.110). -/
theorem C8_thousands_heuristic :
    (∀ v : ℚ, 10000 ≤ |v| →
      to_mm_if_thousands (some v) = some (v / 1000) ∧
      to_mm_from_lease_table v = v / 1000) ∧
    (∀ v : ℚ, |v| < 10000 →
      to_mm_if_thousands (some v) = some v ∧
      to_mm_from_lease_table v = v) ∧
    (∀ (row : List String) (i : Instrument), row_to_instrument row = some i →
      ∃ j, (row.map (fun c => clean_space c.data)).findIdx?
          (fun ct => reTest duePat ct) = some j ∧
        i.amount_outstanding_mm = to_mm_if_thousands
          (scan_cells ((row.map (fun c => clean_space c.data)).drop (j + 1))
            none).1) ∧
    ((parse_lease_note_html [c8leaseTable] (some "December 28, 2024")).instruments.map
        (fun i => (i.instrument_name, i.amount_outstanding_mm)) =
      [("Total operating lease liabilities", some (2358693 / 1000))]) ∧
    ((parse_debt_note_html [c8debtTable] "" none none).instruments.map
        (fun i => i.amount_outstanding_mm) = [some (299110 / 1000)]) := by
  refine ⟨?_, ?_, ?_, ?_, ?_⟩
  · intro v h
    constructor
    · show some (if 10000 ≤ |v| then v / 1000 else v) = some (v / 1000)
      rw [if_pos h]
    · show (if 10000 ≤ |v| then v / 1000 else v) = v / 1000
      rw [if_pos h]
  · intro v h
    constructor
    · show some (if 10000 ≤ |v| then v / 1000 else v) = some v
      rw [if_neg (by push_neg; exact h)]
    · show (if 10000 ≤ |v| then v / 1000 else v) = v
      rw [if_neg (by push_neg; exact h)]
  · intro row i h
    unfold row_to_instrument at h
    split at h
    · exact Option.noConfusion h
    · rename_i j hj
      unfold row_named_instrument at h
      split at h
      · exact Option.noConfusion h
      · refine ⟨j, hj, ?_⟩
        rw [← Option.some.injEq _ _ |>.mp h]
  · have h1 : (parse_lease_note_html [c8leaseTable]
        (some "December 28, 2024")).instruments.map
        (fun i => (i.instrument_name, i.amount_outstanding_mm)) =
        [("Total operating lease liabilities",
          some (round3 (to_mm_from_lease_table ((2358693 : Int) : ℚ))))] := rfl
    rw [h1]
    have h2 : round3 (to_mm_from_lease_table ((2358693 : Int) : ℚ)) =
        2358693 / 1000 := by
      unfold to_mm_from_lease_table
      rw [if_pos (by rw [abs_of_nonneg] <;> norm_num)]
      rw [show ((2358693 : Int) : ℚ) / 1000 = ((2358693 : Int) : ℚ) / 1000 from rfl]
      rw [round3_eq_of_isM3 ⟨2358693, by norm_num⟩]
      norm_num
    rw [h2]
  · have h1 : (parse_debt_note_html [c8debtTable] "" none none).instruments.map
        (fun i => i.amount_outstanding_mm) =
        [to_mm_if_thousands (some (ratOfParts ((299110 : Int), 0, 0)))] := rfl
    rw [h1]
    have hval : ratOfParts ((299110 : Int), 0, 0) = 299110 := by
      unfold ratOfParts
      norm_num
    rw [hval]
    have h2 : to_mm_if_thousands (some (299110 : ℚ)) = some (299110 / 1000) := by
      show some (if 10000 ≤ |(299110 : ℚ)| then (299110 : ℚ) / 1000 else 299110) =
        some (299110 / 1000)
      rw [if_pos (by rw [abs_of_nonneg (by norm_num)]; norm_num)]
    rw [h2]

/-- Concrete C8 tier runs through the theorem: 2,358,693 is scaled down,
2,358 passes through. -/
theorem C8_thousands_heuristic_witness :
    to_mm_if_thousands (some (2358693 : ℚ)) = some (2358693 / 1000) ∧
    to_mm_from_lease_table (2358693 : ℚ) = 2358693 / 1000 ∧
    to_mm_if_thousands (some (2358 : ℚ)) = some 2358 ∧
    to_mm_from_lease_table (2358 : ℚ) = 2358 := by
  have ha := C8_thousands_heuristic.1 2358693
    (by rw [abs_of_nonneg] <;> norm_num)
  have hb := C8_thousands_heuristic.2.1 2358
    (by rw [abs_of_nonneg] <;> norm_num)
  exact ⟨ha.1, ha.2, hb.1, hb.2⟩
